import Mathlib

/-!
Verification of the DFM (design-for-manufacturing) geometric rule engine of
the `tactile` repository, shallowly embedded in Lean 4.

Source files embedded here:
  * `src/agent/cad_tool/analyze/geometry_analyzer.py`  (class GeometryAnalyzer)
  * `src/agent/cad_tool/analyze/assembly_analyzer.py`  (class AssemblyAnalyzer)
  * `src/src/cad_tool/analyze/surface_analyzer.py`     (class SurfaceAnalyzer)
  * `src/agent/cad_tool/analyze/analyzer.py`           (analyze_dfm, _create_issue)

Modelling conventions, used consistently below:

  * Numbers are `ℚ`.  The Python source computes with IEEE-754 doubles; we
    idealize double arithmetic as exact rational arithmetic.  The constant
    `math.pi` used by the source is itself a rational number (the double
    nearest π) and is embedded exactly as `mathPi`.
  * The geometry kernel (CadQuery/OCCT) is an external collaborator.  Its
    query surface (`Center`, `normalAt`, `distToShape`, `isInside`,
    `intersect(...).Volume()`, ...) is part of the model data: fallible
    queries are `Option`-valued fields, mirroring the source's
    try/except-per-feature pattern, where `none` plays the role of a raised
    exception caught at the nearest enclosing `try`.
  * `normalAt(...).normalized()` and the normalisation of the pull
    direction: the kernel returns unit normals, and on unit vectors
    `.normalized()` is the identity, so the embedding works with the raw
    vectors; theorems about arbitrary pull directions carry an explicit
    unit-length hypothesis (`Vec.normSq d = 1`).
  * Comparisons of angles produced by `math.degrees(math.acos(...))` are
    embedded through exact monotone-equivalent algebraic forms on the
    cosines (documented at each definition); the one family of angle
    comparisons with transcendental thresholds (the 0°/0.5°/1.0°
    draft-angle cuts of `analyze_draft_angles`) is abstracted as an oracle
    parameter `draftLt`, on whose behaviour no claim in this development
    depends (the issues built from draft records are constant records).
  * Pure display artifacts of the source (number formatting such as
    `:.2f`, apostrophes inside display prose, and numeric fields of
    intermediate records that no later code reads) are elided or carried
    via `toString`; each elision is noted at the definition it concerns.
-/

namespace Tactile

/-- 3-dimensional vector (also used for points), components rational. -/
structure Vec where
  x : ℚ
  y : ℚ
  z : ℚ
deriving DecidableEq, Repr

/-- Dot product `a.dot(b)` of `cq.Vector`. -/
def Vec.dot (a b : Vec) : ℚ :=
  a.x * b.x + a.y * b.y + a.z * b.z

/-- Vector addition `a.add(b)`. -/
def Vec.add (a b : Vec) : Vec :=
  ⟨a.x + b.x, a.y + b.y, a.z + b.z⟩

/-- Scalar multiple `v.multiply(c)`. -/
def Vec.smul (c : ℚ) (v : Vec) : Vec :=
  ⟨c * v.x, c * v.y, c * v.z⟩

/-- Negated vector (used for reversing a pull direction). -/
def Vec.neg (v : Vec) : Vec :=
  ⟨-v.x, -v.y, -v.z⟩

/-- Squared Euclidean norm; `Vec.normSq v = 1` states that `v` is a unit
vector. -/
def Vec.normSq (v : Vec) : ℚ :=
  v.x * v.x + v.y * v.y + v.z * v.z

/-- A point is a vector. -/
abbrev Point := Vec

/-- B-rep edge as observed through the kernel query surface.
`geomType` is the string tag of `edge.geomType()` ("LINE", "CIRCLE", ...);
`center` is `edge.Center()`; `radius` is `edge.Radius()`, an `Option`
because the query raises on non-circular edges.  `id` identifies the
underlying kernel edge object (two faces sharing a topological edge see
equal `id`s), mirroring the Python object/shape equality used for dict
keys in `detect_sharp_internal_corners`. -/
structure Edge where
  id : Nat
  geomType : String
  center : Point
  radius : Option ℚ
deriving Repr

/-- B-rep face as observed through the kernel query surface.
`id` identifies the underlying kernel face object (Python `f1 == f2`);
`geomType` is `face.geomType()`; `area` is `face.Area()`;
`orientation` is `face.Orientation()` ("FORWARD"/"REVERSED");
`center` is `face.Center()` (fallible); `normalAt p` is
`face.normalAt(p).normalized()` (fallible, returns the unit normal, see
the conventions above); `distToPoint p` is
`face.distToShape(cq.Vertex.makeVertex(p))` (fallible);
`edges` is `face.edges().vals()`. -/
structure Face where
  id : Nat
  geomType : String
  area : ℚ
  orientation : String
  center : Option Point
  normalAt : Point → Option Vec
  distToPoint : Point → Option ℚ
  edges : List Edge

/-- Axis-aligned bounding box, `solid.BoundingBox()`. -/
structure BBox where
  xmin : ℚ
  xmax : ℚ
  ymin : ℚ
  ymax : ℚ
  zmin : ℚ
  zmax : ℚ
deriving DecidableEq, Repr

/-- `bbox.xlen`. -/
def BBox.xlen (b : BBox) : ℚ := b.xmax - b.xmin

/-- `bbox.ylen`. -/
def BBox.ylen (b : BBox) : ℚ := b.ymax - b.ymin

/-- `bbox.zlen`. -/
def BBox.zlen (b : BBox) : ℚ := b.zmax - b.zmin

/-- `bbox1.overlap(bbox2)`: the two closed boxes intersect, i.e. the
intervals overlap on every axis. -/
def BBox.overlaps (a b : BBox) : Bool :=
  decide (a.xmin ≤ b.xmax ∧ b.xmin ≤ a.xmax ∧
          a.ymin ≤ b.ymax ∧ b.ymin ≤ a.ymax ∧
          a.zmin ≤ b.zmax ∧ b.zmin ≤ a.zmax)

/-- One solid of the workplane, as used by `AssemblyAnalyzer`
(`solid.Volume()`, `solid.BoundingBox()`). -/
structure Solid where
  volume : ℚ
  bbox : BBox
deriving DecidableEq, Repr

/-- Data of `workplane.val()` (the first solid): bounding box, total area,
volume, and the point-membership query.  `isInsideProbe mid dir` packages
the collaborator query `solid.isInside(mid + 0.1 * dir.normalized())`
used by the sharp-corner concavity test; the probe-point construction
involves an (irrational) vector normalisation and is therefore folded
into the kernel-query datum. -/
structure SolidData where
  bbox : BBox
  area : ℚ
  volume : ℚ
  isInsideProbe : Point → Vec → Bool

/-- The workplane handed to `analyze_dfm`.
`faces` is `workplane.faces().vals()`, `solids` is
`workplane.solids().vals()`, `val` is `workplane.val()` (`none` when the
workplane holds no solid or the query fails).
`intersectVolume i j` is `solids[i].intersect(solids[j]).Volume()` and
`solidDist i j` is `solids[i].distToShape(solids[j])`, both indexed by
positions in `solids` and fallible. -/
structure Model where
  faces : List Face
  solids : List Solid
  val : Option SolidData
  intersectVolume : Nat → Nat → Option ℚ
  solidDist : Nat → Nat → Option ℚ

/-- The IEEE-754 double closest to π, the exact value of Python
`math.pi` used by `_get_cylinder_properties`. -/
def mathPi : ℚ := 884279719003555 / 281474976710656

/-- Indexed filterMap: the common shape of the source's
`for i, x in enumerate(xs): ... results.append(...)` loops in which each
iteration appends at most one record (and a caught per-feature exception
appends none).  `g i x = none` covers both "not flagged" and
"query failed, feature skipped". -/
def enumFilterMapFrom {α β : Type} (g : Nat → α → Option β) (k : Nat) :
    List α → List β
  | [] => []
  | a :: as =>
    match g k a with
    | some b => b :: enumFilterMapFrom g (k + 1) as
    | none => enumFilterMapFrom g (k + 1) as

/-- The pull direction +Z used as default by the source
(`pull_direction=(0, 0, 1)`) and the fixed build direction of
`analyze_overhangs_3d_print` (`build_direction = cq.Vector(0, 0, 1)`). -/
def zUp : Vec := ⟨0, 0, 1⟩

/-- Query every element, short-circuiting on the first failure: the
shape of a loop of fallible kernel queries inside one `try`, where any
raise aborts the whole batch. -/
def queryAll {α β : Type} (g : α → Option β) : List α → Option (List β)
  | [] => some []
  | a :: as =>
    match g a with
    | none => none
    | some b =>
      match queryAll g as with
      | none => none
      | some bs => some (b :: bs)

/-! ## GeometryAnalyzer.detect_undercuts (geometry_analyzer.py:139-173) -/

/-- Record appended by `detect_undercuts`.
`description` embeds the f-string
`f"Face F{i} creates an undercut (normal dot pull = {dot:.2f})."` with the
`:.2f` formatting elided (`toString` of the exact rational instead). -/
structure UndercutRec where
  face_id : String
  severity : String
  dot_product : ℚ
  description : String
  recommendation : String
deriving DecidableEq, Repr

/-- The record `detect_undercuts` appends for face index `i` when the dot
product of the face normal with the pull direction is `dot`. -/
def mkUndercutRec (i : Nat) (dot : ℚ) : UndercutRec :=
  { face_id := "F" ++ toString i
  , severity := if dot < -(7/10) then "high" else "medium"
  , dot_product := dot
  , description := "Face F" ++ toString i ++
      " creates an undercut (normal dot pull = " ++ toString dot ++ ")."
  , recommendation := "Avoid features that face opposite to the pull direction, or use a complex mold with side-actions." }

/-- The body of the `for i, face in enumerate(faces)` loop of
`detect_undercuts` at index `i`: `none` both when a kernel query raises
(caught by the per-face `try`) and when the face is not flagged. -/
def undercutAt (pull : Vec) (i : Nat) (f : Face) : Option UndercutRec :=
  match f.center with
  | none => none
  | some c =>
    match f.normalAt c with
    | none => none
    | some n =>
      if n.dot pull < -(1/20) then some (mkUndercutRec i (n.dot pull))
      else none

/-- `GeometryAnalyzer.detect_undercuts(workplane, pull_direction)`.  The
pull direction is expected unit length (the source normalises it; see the
conventions). -/
def detectUndercuts (faces : List Face) (pull : Vec) : List UndercutRec :=
  enumFilterMapFrom (undercutAt pull) 0 faces

/-! ## GeometryAnalyzer hole/boss classification
(analyze_hole_dimensions, geometry_analyzer.py:282-309, and
_get_cylinder_properties, geometry_analyzer.py:372-396) -/

/-- `GeometryAnalyzer._get_cylinder_properties(face)`: radius from the
first adjacent circular edge (0 when there is none or `Radius()` raises,
the raise being caught by the function's own `try`), height from
`area / (2 * math.pi * radius)` when the radius is positive, and
`(0, 0)` otherwise. -/
def getCylinderProperties (f : Face) : ℚ × ℚ :=
  match (f.edges.filter fun e => e.geomType = "CIRCLE").head? with
  | none => (0, 0)
  | some e =>
    match e.radius with
    | none => (0, 0)
    | some r =>
      if r > 0 then (r, f.area / (2 * mathPi * r)) else (0, 0)

/-- Feature record built by `analyze_hole_dimensions` for a cylindrical
face.  `idx` carries the enumeration index that the source encodes as
`"F{i}"` in `face_id` and re-parses with `int(hole["face_id"][1:])`
inside `analyze_hole_clearance`; we carry the integer directly alongside
the string. -/
structure HoleFeature where
  idx : Nat
  face_id : String
  ftype : String
  radius : ℚ
  diameter : ℚ
  height : ℚ
  area : ℚ
  is_internal : Bool
  recommendation : String
deriving DecidableEq, Repr

/-- Loop body of `analyze_hole_dimensions`: every CYLINDER face yields a
feature; `Orientation() == "REVERSED"` marks a hole. -/
def holeFeatureAt (i : Nat) (f : Face) : Option HoleFeature :=
  if f.geomType = "CYLINDER" then
    let rh := getCylinderProperties f
    let isInternal := f.orientation = "REVERSED"
    some { idx := i
         , face_id := "F" ++ toString i
         , ftype := if isInternal then "HOLE" else "BOSS"
         , radius := rh.1
         , diameter := 2 * rh.1
         , height := rh.2
         , area := f.area
         , is_internal := isInternal
         , recommendation := "Check if " ++ toString (2 * rh.1) ++
             "mm diameter matches standard tooling." }
  else none

/-- `GeometryAnalyzer.analyze_hole_dimensions(workplane)`.  The function
wraps its whole loop in one `try` returning `[]` on failure; every query
it performs (`geomType`, `Orientation`, `Area`, `edges`) is infallible in
the model, and the fallible `Radius()` is caught one level down inside
`_get_cylinder_properties`, so the outer handler is dead code here. -/
def analyzeHoleDimensions (faces : List Face) : List HoleFeature :=
  enumFilterMapFrom holeFeatureAt 0 faces

/-! ## GeometryAnalyzer.analyze_hole_machinability
(geometry_analyzer.py:311-370) -/

/-- Record appended by `analyze_hole_machinability`.  The three record
shapes of the source (DEEP_HOLE / SMALL_HOLE / POTENTIAL_TAPPED_HOLE
dicts) are merged into one structure with `Option` fields for the keys a
given shape omits. -/
structure MachRec where
  face_id : String
  mtype : String
  diameter : ℚ
  depth : Option ℚ
  ratio : Option ℚ
  tap : Option String
  severity : String
  recommendation : String
deriving DecidableEq, Repr

/-- The fixed tap-drill table `taps` of the source, in its insertion
(= iteration) order. -/
def tapsList : List (ℚ × String) :=
  [(5/2, "M3"), (33/10, "M4"), (21/5, "M5"), (5, "M6"),
   (34/5, "M8"), (17/2, "M10"), (51/5, "M12")]

/-- First tap-table entry within 0.05 of `d`, mirroring the
`for size, tap in taps.items(): if abs(diameter - size) < 0.05: ...; break`
loop. -/
def findTap (d : ℚ) : List (ℚ × String) → Option (ℚ × String)
  | [] => none
  | p :: ps => if |d - p.1| < 1/20 then some p else findTap d ps

/-- DEEP_HOLE record (`ratio > 5.0` branch); the `:.1f` formatting of the
recommendation is elided (`toString` of the exact rational). -/
def deepHoleRec (h : HoleFeature) : MachRec :=
  { face_id := h.face_id
  , mtype := "DEEP_HOLE"
  , diameter := h.diameter
  , depth := some h.height
  , ratio := some (h.height / h.diameter)
  , tap := none
  , severity := if h.height / h.diameter > 10 then "high" else "medium"
  , recommendation := "Hole L/D ratio is " ++ toString (h.height / h.diameter) ++
      ". Ratios > 5 require special drills; > 10 are very difficult." }

/-- SMALL_HOLE record (`diameter < 1.5` branch). -/
def smallHoleRec (h : HoleFeature) : MachRec :=
  { face_id := h.face_id
  , mtype := "SMALL_HOLE"
  , diameter := h.diameter
  , depth := none
  , ratio := none
  , tap := none
  , severity := "medium"
  , recommendation := "Hole diameter " ++ toString h.diameter ++
      "mm is small. Ensure availability of micro-drills." }

/-- POTENTIAL_TAPPED_HOLE record for tap size `tap`. -/
def tapRec (h : HoleFeature) (tap : String) : MachRec :=
  { face_id := h.face_id
  , mtype := "POTENTIAL_TAPPED_HOLE"
  , diameter := h.diameter
  , depth := none
  , ratio := none
  , tap := some tap
  , severity := "info"
  , recommendation := "Hole matches tap drill size for " ++ tap ++
      ". Ensure appropriate thread clearance and depth." }

/-- Per-hole body of the `analyze_hole_machinability` loop: internal
holes with positive diameter are checked for depth ratio, small diameter
and tap-drill match, appending in that order. -/
def machContribution (h : HoleFeature) : List MachRec :=
  if h.is_internal then
    if h.diameter > 0 then
      (if h.height / h.diameter > 5 then [deepHoleRec h] else []) ++
      (if h.diameter < 3/2 then [smallHoleRec h] else []) ++
      (match findTap h.diameter tapsList with
       | some p => [tapRec h p.2]
       | none => [])
    else []
  else []

/-- `GeometryAnalyzer.analyze_hole_machinability(workplane)`.  The
enclosing `try` of the source is dead code with the modelled queries (see
`analyzeHoleDimensions`). -/
def analyzeHoleMachinability (faces : List Face) : List MachRec :=
  (analyzeHoleDimensions faces).flatMap machContribution

/-! ## GeometryAnalyzer.analyze_hole_clearance
(geometry_analyzer.py:420-481) -/

/-- Record appended by `analyze_hole_clearance`; recommendation
formatting (`:.2f`) elided. -/
structure ClearanceRec where
  face_id : String
  ctype : String
  clearance : ℚ
  required : ℚ
  severity : String
  recommendation : String
deriving DecidableEq, Repr

/-- The `for i, face in enumerate(faces)` scan of `analyze_hole_clearance`
for the hole centred at `c` with the given `radius`, skipping index
`fidx` (the hole's own face).  The accumulator is the running `min_dist`
(`none` = `float('inf')`); the outer `Option` is the per-hole `try`:
`none` when some `distToShape` raises, which skips the whole hole.  A
candidate updates the minimum only when `1e-3 < clearance < min_dist`. -/
def clearanceScanFrom (c : Point) (radius : ℚ) (fidx : Nat) (k : Nat) :
    List Face → Option ℚ → Option (Option ℚ)
  | [], acc => some acc
  | f :: fs, acc =>
    if k = fidx then clearanceScanFrom c radius fidx (k + 1) fs acc
    else
      match f.distToPoint c with
      | none => none
      | some d =>
        let cl := d - radius
        let acc' : Option ℚ :=
          match acc with
          | none => if 1/1000 < cl then some cl else none
          | some m => if 1/1000 < cl ∧ cl < m then some cl else some m
        clearanceScanFrom c radius fidx (k + 1) fs acc'

/-- The HOLE_EDGE_CLEARANCE record for hole `h` with scanned minimum
clearance `md` (required clearance is `diameter * 1.5`, severity high
when the minimum is below one diameter). -/
def mkClearanceRec (h : HoleFeature) (md : ℚ) : ClearanceRec :=
  { face_id := h.face_id
  , ctype := "HOLE_EDGE_CLEARANCE"
  , clearance := md
  , required := h.diameter * (3/2)
  , severity := if md < h.diameter then "high" else "medium"
  , recommendation := "Hole " ++ h.face_id ++ " is too close to an edge (" ++
      toString md ++ "mm). Recommend at least " ++
      toString (h.diameter * (3/2)) ++ "mm clearance." }

/-- Per-hole body of `analyze_hole_clearance` (`min_factor` fixed to its
default 1.5): flags the hole when the scanned minimum clearance is below
`diameter * 1.5`, with severity `"high"` when it is below one diameter.
The source also builds a set `hole_face_ids` of all internal-hole face
ids, but never reads it; the scan excludes only the hole's own face. -/
def clearanceForHole (faces : List Face) (h : HoleFeature) :
    Option ClearanceRec :=
  if h.is_internal then
    match faces[h.idx]? with
    | none => none
    | some hf =>
      match hf.center with
      | none => none
      | some c =>
        match clearanceScanFrom c h.radius h.idx 0 faces none with
        | none => none
        | some none => none
        | some (some md) =>
          if md < h.diameter * (3/2) then some (mkClearanceRec h md)
          else none
  else none

/-- `GeometryAnalyzer.analyze_hole_clearance(workplane)`: empty when the
workplane has no solid, otherwise one optional record per classified
hole. -/
def analyzeHoleClearance (m : Model) : List ClearanceRec :=
  match m.val with
  | none => []
  | some _ => (analyzeHoleDimensions m.faces).filterMap (clearanceForHole m.faces)

/-! ## GeometryAnalyzer.analyze_boss_manufacturability
(geometry_analyzer.py:483-511) -/

/-- TALL_BOSS record; recommendation formatting (`:.1f`) elided. -/
structure BossRec where
  face_id : String
  btype : String
  height : ℚ
  diameter : ℚ
  ratio : ℚ
  severity : String
  recommendation : String
deriving DecidableEq, Repr

/-- Per-feature body of the `analyze_boss_manufacturability` loop:
BOSS-typed features with positive diameter and `height/diameter > 3` are
flagged. -/
def bossContribution (h : HoleFeature) : Option BossRec :=
  if h.ftype = "BOSS" then
    if h.diameter > 0 then
      if h.height / h.diameter > 3 then
        some { face_id := h.face_id
             , btype := "TALL_BOSS"
             , height := h.height
             , diameter := h.diameter
             , ratio := h.height / h.diameter
             , severity := "medium"
             , recommendation := "Boss height-to-diameter ratio is " ++
                 toString (h.height / h.diameter) ++
                 ". Recommend keeping H/D <= 3.0 to prevent breakage." }
      else none
    else none
  else none

/-- `GeometryAnalyzer.analyze_boss_manufacturability(workplane)`. -/
def analyzeBossManufacturability (faces : List Face) : List BossRec :=
  (analyzeHoleDimensions faces).filterMap bossContribution

/-! ## GeometryAnalyzer.detect_small_features
(geometry_analyzer.py:398-418) -/

/-- SMALL_FACE record; the `:.3f` formatting of the recommendation and
its apostrophe-bearing closing sentence are elided/adjusted as display
prose. -/
structure SmallRec where
  face_id : String
  stype : String
  area : ℚ
  severity : String
  recommendation : String
deriving DecidableEq, Repr

/-- Loop body of `detect_small_features` with the default threshold 0.5:
flags faces with `0 < area < 0.5²`.  The per-face `try` only guards the
infallible `Area()` query, so no skip path remains in the model. -/
def smallFeatureAt (i : Nat) (f : Face) : Option SmallRec :=
  if 0 < f.area ∧ f.area < 1/4 then
    some { face_id := "F" ++ toString i
         , stype := "SMALL_FACE"
         , area := f.area
         , severity := "low"
         , recommendation := "Face area (" ++ toString f.area ++
             " mm2) is very small. Verify whether it is intentional or a modeling artifact." }
  else none

/-- `GeometryAnalyzer.detect_small_features(workplane, threshold=0.5)`. -/
def detectSmallFeatures (faces : List Face) : List SmallRec :=
  enumFilterMapFrom smallFeatureAt 0 faces

/-! ## GeometryAnalyzer.analyze_overhangs_3d_print
(geometry_analyzer.py:175-220) -/

/-- Record appended by `analyze_overhangs_3d_print`.  The stored
`overhang_angle` (`90 - degrees(acos(|dot|))`, transcendental in the
dot product) and the recommendation f-string displaying it are elided:
no later code reads them (`analyze_dfm` builds the FDM_001 issue from
constants). -/
structure OverhangRec where
  face_id : String
  needs_support : Bool
deriving DecidableEq, Repr

/-- Sample points used by `analyze_overhangs_3d_print` (and by
`analyze_draft_angles`): the face centre plus, for non-planar faces, the
centres of all boundary edges. -/
def samplePts (c : Point) (f : Face) : List Point :=
  c :: (if f.geomType = "PLANE" then [] else f.edges.map Edge.center)

/-- Loop body of `analyze_overhangs_3d_print` at face index `i` with the
default `max_angle = 45`.  The source flags a face when the maximum over
downward samples (`dot < -1e-6`) of `90 - degrees(acos(|dot|))` exceeds
45 (the maximum starts at 0, so this holds exactly when some sample
exceeds 45).  For a unit normal, `90 - degrees(acos(|dot|)) > 45` is
equivalent to `|dot| > cos 45° = √2/2`, i.e. to `2·dot² > 1`; the
comparison is embedded in that exact algebraic form.  A failing
`Center()` or `normalAt()` query on any sample raises into the per-face
`try` and skips the face. -/
def overhangAt (i : Nat) (f : Face) : Option OverhangRec :=
  match f.center with
  | none => none
  | some c =>
    match queryAll f.normalAt (samplePts c f) with
    | none => none
    | some ns =>
      if ns.any fun n =>
          decide (n.dot zUp < -(1/1000000)) && decide (2 * (n.dot zUp)^2 > 1)
      then some { face_id := "F" ++ toString i, needs_support := true }
      else none

/-- `GeometryAnalyzer.analyze_overhangs_3d_print(workplane, max_angle=45)`. -/
def analyzeOverhangs3dPrint (faces : List Face) : List OverhangRec :=
  enumFilterMapFrom overhangAt 0 faces

/-! ## GeometryAnalyzer.analyze_draft_angles
(geometry_analyzer.py:80-137) -/

/-- Record appended by `analyze_draft_angles`.  The source stores
`draft_angle = min over samples of (90 - degrees(acos(min(|dot|, 1))))`;
since `90 - degrees(acos q)` is strictly increasing in `q` on `[0, 1]`,
the record equivalently stores `minAbsDot`, the minimum over samples of
`min(|dot|, 1)` (the worst cosine).  Comparisons of the draft angle
against the thresholds 0°/0.5°/1.0° are transcendental in `minAbsDot`
and are delegated to the oracle `draftLt` (see the conventions);
`draftLt q t` stands for `90 - degrees(acos q) < t`. -/
structure DraftRec where
  face_id : String
  face_type : String
  minAbsDot : ℚ
  needs_draft : Bool
  recommendation : String
deriving DecidableEq, Repr

/-- `GeometryAnalyzer._draft_recommendation(angle)` through the oracle. -/
def draftRecommendationStr (draftLt : ℚ → ℚ → Bool) (q : ℚ) : String :=
  if draftLt q 0 then
    "CRITICAL: Negative draft - part will not eject. Add positive draft."
  else if draftLt q (1/2) then
    "WARNING: Minimal draft - ejection difficult. Recommend 1-2°."
  else if draftLt q 1 then
    "CAUTION: Low draft - may cause ejection marks. Consider 2°+."
  else "OK"

/-- Loop body of `analyze_draft_angles` at face index `i` for pull
direction +Z (the default the aggregator uses).  `min_draft` starts at
90 = the draft of cosine 1, so the worst cosine folds `min` over the
clamped sample cosines starting from 1.  The tracked `worst_normal` is
never read and is elided. -/
def draftAt (draftLt : ℚ → ℚ → Bool) (i : Nat) (f : Face) :
    Option DraftRec :=
  match f.center with
  | none => none
  | some c =>
    match queryAll f.normalAt (samplePts c f) with
    | none => none
    | some ns =>
      let worst := (ns.map fun n => min |n.dot zUp| 1).foldl min 1
      some { face_id := "F" ++ toString i
           , face_type := f.geomType
           , minAbsDot := worst
           , needs_draft := draftLt worst (1/2)
           , recommendation := draftRecommendationStr draftLt worst }

/-- `GeometryAnalyzer.analyze_draft_angles(workplane, (0, 0, 1))`. -/
def analyzeDraftAngles (draftLt : ℚ → ℚ → Bool) (faces : List Face) :
    List DraftRec :=
  enumFilterMapFrom (draftAt draftLt) 0 faces

/-! ## GeometryAnalyzer.detect_sharp_internal_corners
(geometry_analyzer.py:222-280) -/

/-- Record appended by `detect_sharp_internal_corners`.  The stored
`angle = degrees(acos(clamped dot))` is display-only (no later code
reads it) and is carried as the underlying dot product instead; the
recommendation f-string displaying the angle is elided accordingly. -/
structure SharpRec where
  edge_id : String
  dotNormals : ℚ
  ctype : String
  severity : String
  recommendation : String
deriving DecidableEq, Repr

/-- Insert one (edge, face-index) incidence into the insertion-ordered
`edge_to_faces` dict, keyed by underlying edge identity. -/
def insertEdgeFace (e : Edge) (fi : Nat) :
    List (Edge × List Nat) → List (Edge × List Nat)
  | [] => [(e, [fi])]
  | (e₂, fs) :: rest =>
    if e₂.id = e.id then (e₂, fs ++ [fi]) :: rest
    else (e₂, fs) :: insertEdgeFace e fi rest

/-- The `edge_to_faces` map of `detect_sharp_internal_corners`, built by
iterating faces in order and their edges in order (Python dicts preserve
insertion order). -/
def edgeFaceMap (faces : List Face) : List (Edge × List Nat) :=
  (faces.enum).foldl
    (fun m p => p.2.edges.foldl (fun m₂ e => insertEdgeFace e p.1 m₂) m) []

/-- Per-edge body of `detect_sharp_internal_corners` for edges shared by
exactly two faces: straight (LINE) edges whose normals are neither
parallel nor antiparallel (`|dot| ≤ 0.999`) and whose probe point along
`n1 + n2` lies inside the solid are concave sharp corners.  A failing
normal query raises into the per-edge `try` and skips the edge; the
face-index lookups cannot fail for indices collected from the
enumeration. -/
def sharpCornerForEntry (sd : SolidData) (faces : List Face)
    (p : Edge × List Nat) : Option SharpRec :=
  match p.2 with
  | [i, j] =>
    match faces[i]?, faces[j]? with
    | some f1, some f2 =>
      if p.1.geomType = "LINE" then
        let mid := p.1.center
        match f1.normalAt mid, f2.normalAt mid with
        | some n1, some n2 =>
          if |n1.dot n2| > 999/1000 then none
          else if sd.isInsideProbe mid (n1.add n2) then
            some { edge_id := "SHARP_EDGE"
                 , dotNormals := n1.dot n2
                 , ctype := "SHARP_INTERNAL"
                 , severity := "medium"
                 , recommendation := "Concave corner detected. Consider adding a fillet (min R0.5mm)." }
          else none
        | _, _ => none
      else none
    | _, _ => none
  | _ => none

/-- `GeometryAnalyzer.detect_sharp_internal_corners(workplane)`: empty
when the workplane has no solid. -/
def detectSharpInternalCorners (m : Model) : List SharpRec :=
  match m.val with
  | none => []
  | some sd => (edgeFaceMap m.faces).filterMap (sharpCornerForEntry sd m.faces)

/-! ## GeometryAnalyzer.analyze_wall_thickness
(geometry_analyzer.py:8-78) -/

/-- Result of `analyze_wall_thickness`; the constant `thin_regions: []`
and the fallback-only `note` entry are elided. -/
structure ThicknessResult where
  min_thickness : Option ℚ
  max_thickness : Option ℚ
  avg_thickness : Option ℚ
deriving DecidableEq, Repr

/-- Stable insertion into a list sorted by descending face area:
`f` goes before the first face whose area it reaches, so earlier
elements win ties, matching Python's stable `sorted(..., reverse=True)`. -/
def insertByAreaDesc (f : Face) : List Face → List Face
  | [] => [f]
  | g :: gs => if f.area ≥ g.area then f :: g :: gs else g :: insertByAreaDesc f gs

/-- `sorted(faces, key=lambda f: f.Area(), reverse=True)` as a stable
insertion sort. -/
def sortByAreaDesc : List Face → List Face
  | [] => []
  | f :: fs => insertByAreaDesc f (sortByAreaDesc fs)

/-- The inner `for j, f2 in enumerate(faces)` loop of
`analyze_wall_thickness` for the sampled face `f1` with centre `p` and
inward probe point `pin = p - 0.01*n`.  The accumulator is the running
`min_dist` (`none` = `float('inf')`); the outer `Option` is the sampled
face's `try`: a failing `distToShape` raises and skips the whole sample.
A candidate face becomes the opposing wall only when it is closer than
the current minimum and moving inward decreases the distance to it. -/
def wallScan (p pin : Point) (f1 : Face) :
    List Face → Option ℚ → Option (Option ℚ)
  | [], acc => some acc
  | f2 :: fs, acc =>
    if f2.id = f1.id then wallScan p pin f1 fs acc
    else
      match f2.distToPoint p with
      | none => none
      | some dist =>
        let better : Bool :=
          match acc with
          | none => true
          | some m => decide (dist < m)
        if better then
          match f2.distToPoint pin with
          | none => none
          | some distIn =>
            wallScan p pin f1 fs (if distIn < dist then some dist else acc)
        else wallScan p pin f1 fs acc

/-- The thickness sample produced by one face of the sampled subset:
`none` when a query failed (`except: continue`) or when no valid
opposing wall was found (`min_dist` stayed infinite or was ≤ 1e-6). -/
def faceThickness (faces : List Face) (f1 : Face) : Option ℚ :=
  match f1.center with
  | none => none
  | some p =>
    match f1.normalAt p with
    | none => none
    | some n =>
      let pin := p.add (Vec.smul (-(1/100)) n)
      match wallScan p pin f1 faces none with
      | none => none
      | some none => none
      | some (some md) => if md > 1/1000000 then some md else none

/-- Python `min` over a nonempty list. -/
def listMin (v : ℚ) (vs : List ℚ) : ℚ := vs.foldl min v

/-- Python `max` over a nonempty list. -/
def listMax (v : ℚ) (vs : List ℚ) : ℚ := vs.foldl max v

/-- `GeometryAnalyzer.analyze_wall_thickness(workplane, sample_points=20)`:
sample the 20 largest faces, collect their opposing-wall distances, and
aggregate min/max/avg; with no valid sample, fall back to the bounding
box dimensions.  All-`none` when the workplane has no solid (the
source's outer exception path). -/
def analyzeWallThickness (m : Model) (samplePoints : Nat := 20) :
    ThicknessResult :=
  match m.val with
  | none => ⟨none, none, none⟩
  | some sd =>
    let sampled := (sortByAreaDesc m.faces).take samplePoints
    let vals := sampled.filterMap (faceThickness m.faces)
    match vals with
    | [] =>
      let dims := [sd.bbox.xlen, sd.bbox.ylen, sd.bbox.zlen]
      { min_thickness := some (listMin sd.bbox.xlen dims.tail)
      , max_thickness := some (listMax sd.bbox.xlen dims.tail)
      , avg_thickness := some ((sd.bbox.xlen + sd.bbox.ylen + sd.bbox.zlen) / 3) }
    | v :: vs =>
      { min_thickness := some (listMin v vs)
      , max_thickness := some (listMax v vs)
      , avg_thickness := some ((v :: vs).sum / (v :: vs).length) }

/-! ## GeometryAnalyzer.analyze_rib_proportions
(geometry_analyzer.py:553-582) -/

/-- THIN_RIB record; recommendation formatting (`:.2f`) elided. -/
structure RibRec where
  rtype : String
  thickness : ℚ
  nominal : ℚ
  severity : String
  recommendation : String
deriving DecidableEq, Repr

/-- `GeometryAnalyzer.analyze_rib_proportions(workplane)`: flags when the
minimum observed wall thickness is below 0.4 of the average.  The
source's `if min_t and avg_t and ...` uses Python truthiness: `None` and
`0.0` both fail the guard. -/
def analyzeRibProportions (m : Model) : List RibRec :=
  let td := analyzeWallThickness m
  match td.min_thickness, td.avg_thickness with
  | some mt, some av =>
    if mt ≠ 0 ∧ av ≠ 0 ∧ mt < (2/5) * av then
      [{ rtype := "THIN_RIB"
       , thickness := mt
       , nominal := av
       , severity := "medium"
       , recommendation := "Thin feature detected (" ++ toString mt ++
           "mm). If this is a rib, ensure it is 50-70% of wall thickness (" ++
           toString av ++ "mm) to balance strength and sink marks." }]
    else []
  | _, _ => []

/-! ## GeometryAnalyzer.analyze_pocket_accessibility
(geometry_analyzer.py:513-551) -/

/-- Record type for pocket findings; never constructed. -/
structure PocketRec where
  face_id : String
deriving DecidableEq, Repr

/-- `GeometryAnalyzer.analyze_pocket_accessibility(workplane)`: the
source's loops only `pass` and nothing is ever appended to `issues`, and
both the no-solid path and the exception path return `[]`, so the
function is constantly empty. -/
def analyzePocketAccessibility (_ : Model) : List PocketRec := []

/-! ## SurfaceAnalyzer (surface_analyzer.py) -/

/-- Record appended by `SurfaceAnalyzer.analyze_curvature`; the
apostrophe-bearing display sentence of the recommendation is adjusted as
display prose. -/
structure CurvRec where
  face_id : String
  ftype : String
  complexity : String
  area : ℚ
  recommendation : String
deriving DecidableEq, Repr

/-- Loop body of `analyze_curvature`: non-planar faces are classified
medium (CYLINDER/CONE/SPHERE), high (TORUS/BSPLINE/OFFSET/OTHER) or low
(anything else). -/
def curvatureAt (i : Nat) (f : Face) : Option CurvRec :=
  if f.geomType = "PLANE" then none
  else
    let cx :=
      if f.geomType = "CYLINDER" ∨ f.geomType = "CONE" ∨ f.geomType = "SPHERE"
        then "medium"
      else if f.geomType = "TORUS" ∨ f.geomType = "BSPLINE" ∨
          f.geomType = "OFFSET" ∨ f.geomType = "OTHER" then "high"
      else "low"
    some { face_id := "F" ++ toString i
         , ftype := f.geomType
         , complexity := cx
         , area := f.area
         , recommendation := "Complex " ++ f.geomType ++
             " surface detected. Ensure that it is necessary for the design." }

/-- `SurfaceAnalyzer.analyze_curvature(workplane)`. -/
def analyzeCurvature (faces : List Face) : List CurvRec :=
  enumFilterMapFrom curvatureAt 0 faces

/-- Result dict of `analyze_surface_area_efficiency`; `ratio` is the
key `area_to_volume_ratio`, and the constant `description` entry is
elided. -/
structure EffRes where
  surface_area : ℚ
  volume : ℚ
  ratio : ℚ
  normalized_ratio : ℚ
  is_efficient : Bool
deriving DecidableEq, Repr

/-- `SurfaceAnalyzer.analyze_surface_area_efficiency(workplane)`:
area-to-volume ratio normalised by the mean bounding-box extent,
efficient below the fixed threshold 10.  `none` stands for both error
dicts of the source (no solid / exception), which carry no
`is_efficient` key. -/
def analyzeSurfaceAreaEfficiency (m : Model) : Option EffRes :=
  m.val.map fun sd =>
    let ratio := if sd.volume > 0 then sd.area / sd.volume else 0
    let charLength := (sd.bbox.xlen + sd.bbox.ylen + sd.bbox.zlen) / 3
    let nr := ratio * charLength
    { surface_area := sd.area
    , volume := sd.volume
    , ratio := ratio
    , normalized_ratio := nr
    , is_efficient := decide (nr < 10) }

/-! ## AssemblyAnalyzer (assembly_analyzer.py) -/

/-- Result of `AssemblyAnalyzer.analyze_solids`. -/
structure SolidsInfo where
  solid_count : Nat
  is_assembly : Bool
  total_volume : ℚ
deriving DecidableEq, Repr

/-- `AssemblyAnalyzer.analyze_solids(workplane)`. -/
def analyzeSolids (m : Model) : SolidsInfo :=
  { solid_count := m.solids.length
  , is_assembly := m.solids.length > 1
  , total_volume := (m.solids.map Solid.volume).sum }

/-- Record appended by `detect_interferences`: the INTERFERENCE shape
carries volume/relative severity/recommendation, the
POTENTIAL_INTERFERENCE fallback carries a description instead; absent
keys are `none`.  Recommendation formatting (`:.2f`) elided. -/
structure InterfRec where
  solids : String × String
  itype : String
  volume : Option ℚ
  relative_severity : Option ℚ
  severity : String
  description : Option String
  recommendation : Option String
deriving DecidableEq, Repr

/-- The ordered pairs `(i, j)`, `i < j`, visited by the two nested
`for i in range(n): for j in range(i+1, n)` loops. -/
def pairIndices (n : Nat) : List (Nat × Nat) :=
  (List.range n).flatMap fun i => ((List.range n).drop (i + 1)).map fun j => (i, j)

/-- The INTERFERENCE record for pair `(i, j)` with intersection volume
`vol` and relative severity `relSeverity` (high above 0.01);
recommendation formatting (`:.2f`) elided. -/
def mkInterfRec (i j : Nat) (vol relSeverity : ℚ) : InterfRec :=
  { solids := ("S" ++ toString i, "S" ++ toString j)
  , itype := "INTERFERENCE"
  , volume := some vol
  , relative_severity := some relSeverity
  , severity := if relSeverity > 1/100 then "high" else "medium"
  , description := none
  , recommendation := some ("Solid " ++ toString i ++ " and " ++
      toString j ++ " overlap by " ++ toString vol ++
      " mm3. Redesign to remove interference.") }

/-- The POTENTIAL_INTERFERENCE fallback record for pair `(i, j)`. -/
def mkPotentialRec (i j : Nat) : InterfRec :=
  { solids := ("S" ++ toString i, "S" ++ toString j)
  , itype := "POTENTIAL_INTERFERENCE"
  , volume := none
  , relative_severity := none
  , severity := "medium"
  , description := some "Bounding boxes overlap, but exact volume check failed."
  , recommendation := none }

/-- Body of the pair loop of `detect_interferences`: bounding-box
prefilter, then exact intersection volume (`> 1e-6` flags, with relative
severity against the smaller solid); a failing intersection or volume
query falls back to POTENTIAL_INTERFERENCE.  The solid lookups cannot
fail for indices produced by `pairIndices`. -/
def interferenceForPair (m : Model) (p : Nat × Nat) : Option InterfRec :=
  match m.solids[p.1]?, m.solids[p.2]? with
  | some s1, some s2 =>
    if s1.bbox.overlaps s2.bbox then
      match m.intersectVolume p.1 p.2 with
      | some vol =>
        if vol > 1/1000000 then
          some (mkInterfRec p.1 p.2 vol
            (if min s1.volume s2.volume > 0 then vol / min s1.volume s2.volume
             else 0))
        else none
      | none => some (mkPotentialRec p.1 p.2)
    else none
  | _, _ => none

/-- `AssemblyAnalyzer.detect_interferences(workplane)`. -/
def detectInterferences (m : Model) : List InterfRec :=
  (pairIndices m.solids.length).filterMap (interferenceForPair m)

/-- Record appended by `analyze_clearances`; recommendation formatting
(`:.3f`) elided. -/
structure AsmClearRec where
  solids : String × String
  distance : ℚ
  ctype : String
  severity : String
  recommendation : String
deriving DecidableEq, Repr

/-- Body of the pair loop of `analyze_clearances` with the default
`min_clearance = 0.5`: distances below 1e-6 are treated as
touching/interfering and passed over, distances below 0.5 are flagged
(high below 0.25); a failing distance query is caught and the pair
skipped. -/
def clearanceForPair (m : Model) (p : Nat × Nat) : Option AsmClearRec :=
  match m.solids[p.1]?, m.solids[p.2]? with
  | some _, some _ =>
    match m.solidDist p.1 p.2 with
    | none => none
    | some d =>
      if d < 1/1000000 then none
      else if d < 1/2 then
        some { solids := ("S" ++ toString p.1, "S" ++ toString p.2)
             , distance := d
             , ctype := "LOW_CLEARANCE"
             , severity := if d < (1/2)/2 then "high" else "medium"
             , recommendation := "Clearance between Solid " ++ toString p.1 ++
                 " and " ++ toString p.2 ++ " is " ++ toString d ++
                 "mm. Target: 0.5mm." }
      else none
  | _, _ => none

/-- `AssemblyAnalyzer.analyze_clearances(workplane)`. -/
def analyzeClearances (m : Model) : List AsmClearRec :=
  (pairIndices m.solids.length).filterMap (clearanceForPair m)

/-! ## The rule aggregator (analyzer.py) -/

/-- The OpenAPI Issue record built by `_create_issue`
(analyzer.py:99-125).  `severity` carries the enum value string
("ERROR"/"WARNING"/"INFO"). -/
structure Issue where
  ruleId : String
  ruleName : String
  severity : String
  description : String
  affectedFeatures : List String
  recommendation : String
  autoFixAvailable : Bool
deriving DecidableEq, Repr

/-- `_create_issue(...)`; `affected_features=None` defaults to `[]` and
`auto_fix_available` to `False`. -/
def mkIssue (ruleId ruleName severity description recommendation : String)
    (affected : List String := []) (autoFix : Bool := false) : Issue :=
  { ruleId := ruleId
  , ruleName := ruleName
  , severity := severity
  , description := description
  , affectedFeatures := affected
  , recommendation := recommendation
  , autoFixAvailable := autoFix }

/-- The CNC_MACHINING branch of `analyze_dfm` (analyzer.py:136-197).
Per-record `.get` lookups that miss (sharp-corner records carry no
`details`/`affected_features`, machinability and clearance records no
`description`) produce the documented defaults. -/
def cncIssues (m : Model) : List Issue :=
  ((detectSharpInternalCorners m).map fun _c =>
    mkIssue "CNC_001" "Sharp Internal Corners" "ERROR"
      "Sharp internal corner detected with radius < 1.5mm. "
      "Add fillet radius ≥ 1.5mm (matching tool radius) to internal corners for CNC accessibility."
      [] true)
  ++ ((analyzeHoleMachinability m.faces).map fun h =>
    mkIssue "CNC_002" "Hole Machinability"
      (if h.severity = "medium" then "WARNING" else "ERROR")
      "Hole may be difficult to machine" h.recommendation [] false)
  ++ ((analyzeHoleClearance m).map fun c =>
    mkIssue "CNC_003" "Hole Edge Clearance" "WARNING"
      "Insufficient clearance between hole and edge" c.recommendation [] false)
  ++ ((analyzePocketAccessibility m).map fun _p =>
    mkIssue "CNC_004" "Pocket Accessibility" "WARNING"
      "Pocket may be difficult to access"
      "Ensure pocket depth ≤ 3x tool diameter for optimal machining." [] false)
  ++ (match (analyzeWallThickness m).min_thickness with
      | some mt =>
        if mt < 4/5 then
          [mkIssue "CNC_005" "Minimum Wall Thickness" "ERROR"
            ("Wall thickness of " ++ toString mt ++ "mm is below minimum for CNC machining.")
            "Metal parts typically require ≥0.8mm wall thickness for CNC machining stability."
            [] false]
        else []
      | none => [])

/-- The INJECTION_MOLDING branch of `analyze_dfm` (analyzer.py:199-288). -/
def imIssues (draftLt : ℚ → ℚ → Bool) (m : Model) : List Issue :=
  ((analyzeDraftAngles draftLt m.faces).filterMap fun d =>
    if d.needs_draft then
      some (mkIssue "IM_001" "Insufficient Draft Angle" "ERROR"
        "Face requires draft angle. "
        "Add minimum 0.5° draft (1-2° recommended) in pull direction for easy part ejection."
        [] true)
    else none)
  ++ ((detectUndercuts m.faces zUp).map fun u =>
    mkIssue "IM_002" "Undercut Detection" "ERROR" u.description
      "Remove undercuts or design for side-action/lifter mechanisms (increases cost)."
      [] false)
  ++ ((analyzeBossManufacturability m.faces).map fun b =>
    mkIssue "IM_003" "Boss Design" "WARNING"
      "Boss design may cause sink marks or structural issues" b.recommendation [] false)
  ++ ((analyzeRibProportions m).map fun _r =>
    mkIssue "IM_004" "Rib Proportions" "WARNING"
      "Rib proportions may cause sink marks or warping"
      "Rib thickness should be 50-70% of wall thickness, height ≤ 3x rib thickness."
      [] false)
  ++ ((analyzeHoleClearance m).map fun c =>
    mkIssue "IM_005" "Feature Edge Clearance" "WARNING"
      "Insufficient clearance between features" c.recommendation [] false)
  ++ (match (analyzeWallThickness m).min_thickness with
      | none => []
      | some mt =>
        (if mt < 4/5 then
          [mkIssue "IM_006" "Minimum Wall Thickness" "ERROR"
            ("Wall thickness of " ++ toString mt ++ "mm is below minimum for injection molding.")
            "Increase wall thickness to at least 0.8mm-1.0mm for injection molding."
            [] false]
         else [])
        ++ (match (analyzeWallThickness m).max_thickness with
            | some mx =>
              if mt > 0 ∧ (mx - mt) / mt > 1/2 then
                [mkIssue "IM_007" "Wall Thickness Uniformity" "WARNING"
                  ("Wall thickness varies (min: " ++ toString mt ++ "mm, max: " ++
                    toString mx ++ "mm).")
                  "Aim for uniform thickness (±25% variation) to prevent warping and sink marks."
                  [] false]
              else []
            | none => []))

/-- The FDM_3D_PRINTING branch of `analyze_dfm` (analyzer.py:290-326). -/
def fdmIssues (m : Model) : List Issue :=
  ((analyzeOverhangs3dPrint m.faces).map fun _o =>
    mkIssue "FDM_001" "Overhang Angle" "WARNING"
      "Overhang exceeds 45° and may require support structures"
      "Redesign to keep overhangs ≤45° from vertical or add support structures."
      [] false)
  ++ ((analyzeHoleClearance m).map fun c =>
    mkIssue "FDM_002" "Feature Spacing" "WARNING"
      "Insufficient spacing between features" c.recommendation [] false)
  ++ (match (analyzeWallThickness m).min_thickness with
      | some mt =>
        if mt < 4/5 then
          [mkIssue "FDM_003" "Minimum Wall Thickness" "WARNING"
            ("Wall thickness of " ++ toString mt ++ "mm is below recommended minimum for FDM.")
            "Wall thickness below 0.8mm (2x nozzle diameter) may be fragile or fail to print."
            [] false]
        else []
      | none => [])

/-- Step 2 of `analyze_dfm` (analyzer.py:328-350): surface complexity and
material efficiency, run for every process.  The GEN_002 description
displays `efficiency.get('ratio', 0)`, and the efficiency dict has no
key `ratio` (its key is `area_to_volume_ratio`), so the displayed value
is constantly 0. -/
def generalSurfaceIssues (m : Model) : List Issue :=
  ((analyzeCurvature m.faces).filterMap fun s =>
    if s.complexity = "high" then
      some (mkIssue "GEN_001" "Complex Surface Geometry" "INFO"
        ("Complex BSPLINE surface detected (face " ++ s.face_id ++ ").")
        "Consider simplifying this surface to reduce manufacturing complexity and cost."
        [s.face_id] false)
    else none)
  ++ (match analyzeSurfaceAreaEfficiency m with
      | some e =>
        if e.is_efficient then []
        else
          [mkIssue "GEN_002" "Material Efficiency" "INFO"
            "High surface-to-volume ratio: 0"
            "Consider simplifying geometry or increasing thickness to improve material efficiency."
            [] false]
      | none => [])

/-- Step 3 of `analyze_dfm` (analyzer.py:352-375): assembly checks, run
only when the workplane holds more than one solid. -/
def assemblyIssues (m : Model) : List Issue :=
  if (analyzeSolids m).solid_count > 1 then
    ((detectInterferences m).map fun r =>
      mkIssue "ASM_001" "Part Interference" "ERROR"
        (r.description.getD "Parts overlap in assembly")
        "Adjust part positions or geometry to eliminate interference." [] false)
    ++ ((analyzeClearances m).map fun c =>
      mkIssue "ASM_002" "Assembly Clearance" "WARNING"
        "Insufficient clearance between parts" c.recommendation [] false)
  else []

/-- Step 4 of `analyze_dfm` (analyzer.py:377-387): small-feature
detection, run for every process. -/
def smallFeatureIssues (m : Model) : List Issue :=
  (detectSmallFeatures m.faces).map fun s =>
    mkIssue "GEN_003" "Small Feature Detection" "WARNING"
      "Feature may be too small to manufacture reliably" s.recommendation [] false

/-- Step 1 of `analyze_dfm`: the process dispatch
(`if process == "CNC_MACHINING" ... elif ... elif ...`); any other
process string selects no process-specific checks. -/
def processIssues (draftLt : ℚ → ℚ → Bool) (m : Model) (process : String) :
    List Issue :=
  if process = "CNC_MACHINING" then cncIssues m
  else if process = "INJECTION_MOLDING" then imIssues draftLt m
  else if process = "FDM_3D_PRINTING" then fdmIssues m
  else []

/-- `analyze_dfm(workplane, process)` (analyzer.py:128-389): the
process-specific checks followed by the universal surface checks, the
assembly checks (multi-solid models only) and small-feature detection,
in source order. -/
def analyzeDfm (draftLt : ℚ → ℚ → Bool) (m : Model) (process : String) :
    List Issue :=
  processIssues draftLt m process ++ generalSurfaceIssues m ++
    assemblyIssues m ++ smallFeatureIssues m

/-! ## Spec-side definition for the hole-clearance claim

The specification describes the clearance minimum as ranging over "all
non-hole faces" with no lower cutoff.  To compare it against the code,
that description is rendered as a definition of its own (used only as
the foil in the hole-clearance counterexample). -/

/-- Clearance values of the specification's description: distance from
the hole's centre `c` to each face that is not classified as a hole
(i.e. not a REVERSED cylinder), minus the hole radius. -/
def specClearances (faces : List Face) (c : Point) (radius : ℚ) : List ℚ :=
  (faces.filter fun f =>
      ¬(f.geomType = "CYLINDER" ∧ f.orientation = "REVERSED")).filterMap
    fun f => (f.distToPoint c).map (· - radius)

/-- The flag of the specification's description: the minimum clearance
over all non-hole faces is below `diameter × 1.5`. -/
def specHoleClearanceFlag (faces : List Face) (c : Point)
    (radius diameter : ℚ) : Prop :=
  ∃ mn, (specClearances faces c radius).min? = some mn ∧
    mn < diameter * (3/2)

/-- Candidate clearances seen by the scan of `analyze_hole_clearance`:
one per face other than the hole's own (index `fidx`), distance to the
hole centre minus the hole radius.  Used to characterise the scan. -/
def clearanceCands (c : Point) (radius : ℚ) (fidx : Nat) (k : Nat)
    (faces : List Face) : List ℚ :=
  enumFilterMapFrom
    (fun i f => if i = fidx then none else (f.distToPoint c).map (· - radius))
    k faces

/-- Minimum of two extended rationals (`none` = `float('inf')`). -/
def omin : Option ℚ → Option ℚ → Option ℚ
  | none, b => b
  | some a, none => some a
  | some a, some b => some (min a b)

/-! ## Concrete geometry providers used by the theorems below -/

/-- Oracle instantiation for the draft-angle comparisons; every theorem
about `analyzeDfm` holds for an arbitrary oracle, and concrete
evaluations use this one. -/
def draftLtFalse : ℚ → ℚ → Bool := fun _ _ => false

/-- Distance from the scalar `v` to the interval `[lo, hi]`. -/
def gapTo (v lo hi : ℚ) : ℚ := max 0 (max (lo - v) (v - hi))

/-- Distance from `p` to the axis-aligned rectangle `x = a`,
`y ∈ [ylo, yhi]`, `z ∈ [zlo, zhi]`: exact whenever at most one of the
three axis gaps is nonzero — which covers every distance query the
analyses make on the box model below, since all its query points project
into the rectangles — and a lower bound otherwise (the exact value has
an irrational square root there). -/
def rectDistX (a ylo yhi zlo zhi : ℚ) (p : Point) : ℚ :=
  max |p.x - a| (max (gapTo p.y ylo yhi) (gapTo p.z zlo zhi))

/-- Distance to the rectangle `y = a`, `x ∈ [xlo, xhi]`, `z ∈ [zlo, zhi]`
(see `rectDistX`). -/
def rectDistY (a xlo xhi zlo zhi : ℚ) (p : Point) : ℚ :=
  max |p.y - a| (max (gapTo p.x xlo xhi) (gapTo p.z zlo zhi))

/-- Distance to the rectangle `z = a`, `x ∈ [xlo, xhi]`, `y ∈ [ylo, yhi]`
(see `rectDistX`). -/
def rectDistZ (a xlo xhi ylo yhi : ℚ) (p : Point) : ℚ :=
  max |p.z - a| (max (gapTo p.x xlo xhi) (gapTo p.y ylo yhi))

/-- Straight box edge `i` centred at `(cx, cy, cz)`. -/
def boxEdge (i : Nat) (cx cy cz : ℚ) : Edge :=
  ⟨i, "LINE", ⟨cx, cy, cz⟩, none⟩

/-- Bounding box of the 50×30×20 box centred at the origin. -/
def boxBBox : BBox := ⟨-25, 25, -15, 15, -10, 10⟩

/-- Top face (z = 10) of the 50×30×20 box. -/
def boxFaceTop : Face :=
  { id := 0, geomType := "PLANE", area := 1500, orientation := "FORWARD"
  , center := some ⟨0, 0, 10⟩
  , normalAt := fun _ => some ⟨0, 0, 1⟩
  , distToPoint := fun p => some (rectDistZ 10 (-25) 25 (-15) 15 p)
  , edges := [boxEdge 0 0 15 10, boxEdge 1 0 (-15) 10,
              boxEdge 2 25 0 10, boxEdge 3 (-25) 0 10] }

/-- Bottom face (z = -10) of the box; its outward normal points down. -/
def boxFaceBottom : Face :=
  { id := 1, geomType := "PLANE", area := 1500, orientation := "FORWARD"
  , center := some ⟨0, 0, -10⟩
  , normalAt := fun _ => some ⟨0, 0, -1⟩
  , distToPoint := fun p => some (rectDistZ (-10) (-25) 25 (-15) 15 p)
  , edges := [boxEdge 4 0 15 (-10), boxEdge 5 0 (-15) (-10),
              boxEdge 6 25 0 (-10), boxEdge 7 (-25) 0 (-10)] }

/-- Face x = 25 of the box. -/
def boxFaceXPos : Face :=
  { id := 2, geomType := "PLANE", area := 600, orientation := "FORWARD"
  , center := some ⟨25, 0, 0⟩
  , normalAt := fun _ => some ⟨1, 0, 0⟩
  , distToPoint := fun p => some (rectDistX 25 (-15) 15 (-10) 10 p)
  , edges := [boxEdge 2 25 0 10, boxEdge 6 25 0 (-10),
              boxEdge 8 25 15 0, boxEdge 9 25 (-15) 0] }

/-- Face x = -25 of the box. -/
def boxFaceXNeg : Face :=
  { id := 3, geomType := "PLANE", area := 600, orientation := "FORWARD"
  , center := some ⟨-25, 0, 0⟩
  , normalAt := fun _ => some ⟨-1, 0, 0⟩
  , distToPoint := fun p => some (rectDistX (-25) (-15) 15 (-10) 10 p)
  , edges := [boxEdge 3 (-25) 0 10, boxEdge 7 (-25) 0 (-10),
              boxEdge 10 (-25) 15 0, boxEdge 11 (-25) (-15) 0] }

/-- Face y = 15 of the box. -/
def boxFaceYPos : Face :=
  { id := 4, geomType := "PLANE", area := 1000, orientation := "FORWARD"
  , center := some ⟨0, 15, 0⟩
  , normalAt := fun _ => some ⟨0, 1, 0⟩
  , distToPoint := fun p => some (rectDistY 15 (-25) 25 (-10) 10 p)
  , edges := [boxEdge 0 0 15 10, boxEdge 4 0 15 (-10),
              boxEdge 8 25 15 0, boxEdge 10 (-25) 15 0] }

/-- Face y = -15 of the box. -/
def boxFaceYNeg : Face :=
  { id := 5, geomType := "PLANE", area := 1000, orientation := "FORWARD"
  , center := some ⟨0, -15, 0⟩
  , normalAt := fun _ => some ⟨0, -1, 0⟩
  , distToPoint := fun p => some (rectDistY (-15) (-25) 25 (-10) 10 p)
  , edges := [boxEdge 1 0 (-15) 10, boxEdge 5 0 (-15) (-10),
              boxEdge 9 25 (-15) 0, boxEdge 11 (-25) (-15) 0] }

/-- The face list of the 50×30×20 box. -/
def boxFaces : List Face :=
  [boxFaceTop, boxFaceBottom, boxFaceXPos, boxFaceXNeg,
   boxFaceYPos, boxFaceYNeg]

/-- The 50×30×20 mm axis-aligned box with no holes (claim C1's
scenario), centred at the origin as CadQuery's `box()` builds it.  The
box is convex, so every sharp-corner probe point (displaced along the
sum of two outward normals) lies outside it; with a single solid the
pairwise assembly queries are never consulted. -/
def boxModel : Model :=
  { faces := boxFaces
  , solids := [⟨30000, boxBBox⟩]
  , val := some ⟨boxBBox, 6200, 30000, fun _ _ => false⟩
  , intersectVolume := fun _ _ => none
  , solidDist := fun _ _ => none }

/-- The single FDM_001 issue the box produces: its bottom face has
outward normal (0, 0, -1), a fully downward sample whose overhang angle
`90 - degrees(acos 1) = 90` exceeds 45. -/
def boxOverhangIssue : Issue :=
  mkIssue "FDM_001" "Overhang Angle" "WARNING"
    "Overhang exceeds 45° and may require support structures"
    "Redesign to keep overhangs ≤45° from vertical or add support structures."
    [] false

/-- A workplane with no faces and no solids (the degenerate model used
to instantiate the unknown-process theorem). -/
def emptyModel : Model :=
  { faces := [], solids := [], val := none
  , intersectVolume := fun _ _ => none, solidDist := fun _ _ => none }

/-- A face on which every fallible kernel query raises. -/
def brokenFace : Face :=
  { id := 0, geomType := "PLANE", area := 1, orientation := "FORWARD"
  , center := none
  , normalAt := fun _ => none
  , distToPoint := fun _ => none
  , edges := [] }

/-- A workplane whose only face fails every fallible query and whose
`val()` lookup also fails: the worst-case input for the
failure-isolation theorem. -/
def brokenModel : Model :=
  { faces := [brokenFace], solids := [], val := none
  , intersectVolume := fun _ _ => none, solidDist := fun _ _ => none }

/-- Two overlapping unit cubes (overlap 0.5 along x), the concrete
interference instance: intersection volume 0.5, relative severity 0.5. -/
def cubesModel : Model :=
  { faces := [], solids := [⟨1, ⟨0, 1, 0, 1, 0, 1⟩⟩, ⟨1, ⟨1/2, 3/2, 0, 1, 0, 1⟩⟩]
  , val := none
  , intersectVolume := fun i j => if i = 0 ∧ j = 1 then some (1/2) else none
  , solidDist := fun _ _ => none }

/-- Cylindrical hole face of radius 1 whose lateral area `2π` gives
height 1 (hole of diameter 2, depth 1), centred at the origin. -/
def cxHoleFace : Face :=
  { id := 0, geomType := "CYLINDER", area := 2 * mathPi
  , orientation := "REVERSED"
  , center := some ⟨0, 0, 0⟩
  , normalAt := fun _ => some ⟨1, 0, 0⟩
  , distToPoint := fun _ => some 1
  , edges := [⟨10, "CIRCLE", ⟨0, 0, 1/2⟩, some 1⟩] }

/-- A planar face whose distance to the hole centre is 1.0005: its
clearance 0.0005 beyond the hole radius is positive but below the 1e-3
cutoff of the scan. -/
def cxNearFace : Face :=
  { id := 1, geomType := "PLANE", area := 9, orientation := "FORWARD"
  , center := some ⟨0, 0, 1⟩
  , normalAt := fun _ => some ⟨0, 0, 1⟩
  , distToPoint := fun _ => some (2001/2000)
  , edges := [] }

/-- Faces of the spec-mismatch clearance model. -/
def cxFaces : List Face := [cxHoleFace, cxNearFace]

/-- Model for the clearance spec-mismatch: one classified hole, one
non-hole face closer than the 1e-3 cutoff allows. -/
def cxModel : Model :=
  { faces := cxFaces
  , solids := [⟨10, ⟨-2, 2, -2, 2, 0, 1⟩⟩]
  , val := some ⟨⟨-2, 2, -2, 2, 0, 1⟩, 20, 10, fun _ _ => false⟩
  , intersectVolume := fun _ _ => none
  , solidDist := fun _ _ => none }

/-- The hole feature `analyze_hole_dimensions` classifies from
`cxHoleFace`. -/
def cxHole : HoleFeature :=
  { idx := 0
  , face_id := "F" ++ toString 0
  , ftype := "HOLE"
  , radius := 1
  , diameter := 2
  , height := 1
  , area := 2 * mathPi
  , is_internal := true
  , recommendation := "Check if " ++ toString (2 : ℚ) ++
      "mm diameter matches standard tooling." }

/-- Cylindrical hole face (radius 1, height 1) for the flagged-clearance
instance. -/
def clrHoleFace : Face :=
  { id := 0, geomType := "CYLINDER", area := 2 * mathPi
  , orientation := "REVERSED"
  , center := some ⟨0, 0, 0⟩
  , normalAt := fun _ => some ⟨1, 0, 0⟩
  , distToPoint := fun _ => some 1
  , edges := [⟨10, "CIRCLE", ⟨0, 0, 1/2⟩, some 1⟩] }

/-- A face at distance 2.5 from the hole centre: clearance 1.5, below
the required 3 and below one diameter, hence a high-severity flag. -/
def clrFarFace : Face :=
  { id := 1, geomType := "PLANE", area := 9, orientation := "FORWARD"
  , center := some ⟨0, 0, 1⟩
  , normalAt := fun _ => some ⟨0, 0, 1⟩
  , distToPoint := fun _ => some (5/2)
  , edges := [] }

/-- Faces of the flagged-clearance model. -/
def clrFaces : List Face := [clrHoleFace, clrFarFace]

/-- Model around `clrFaces` (one solid, so the clearance check runs). -/
def clrModel : Model :=
  { faces := clrFaces
  , solids := [⟨10, ⟨-2, 2, -2, 2, 0, 1⟩⟩]
  , val := some ⟨⟨-2, 2, -2, 2, 0, 1⟩, 20, 10, fun _ _ => false⟩
  , intersectVolume := fun _ _ => none
  , solidDist := fun _ _ => none }

/-- The hole feature classified from `clrHoleFace`. -/
def clrHole : HoleFeature :=
  { idx := 0
  , face_id := "F" ++ toString 0
  , ftype := "HOLE"
  , radius := 1
  , diameter := 2
  , height := 1
  , area := 2 * mathPi
  , is_internal := true
  , recommendation := "Check if " ++ toString (2 : ℚ) ++
      "mm diameter matches standard tooling." }

/-- Cylindrical hole face of radius 2.5 and lateral area `130π`, hence
height 26: hole of diameter 5 (a tap-drill match for M6) with
depth/diameter ratio 5.2. -/
def cylFace : Face :=
  { id := 0, geomType := "CYLINDER", area := 130 * mathPi
  , orientation := "REVERSED"
  , center := some ⟨0, 0, 0⟩
  , normalAt := fun _ => some ⟨1, 0, 0⟩
  , distToPoint := fun _ => some 10
  , edges := [⟨10, "CIRCLE", ⟨0, 0, 13⟩, some (5/2)⟩] }

/-- The hole feature classified from `cylFace`. -/
def cylHole : HoleFeature :=
  { idx := 0
  , face_id := "F" ++ toString 0
  , ftype := "HOLE"
  , radius := 5/2
  , diameter := 5
  , height := 26
  , area := 130 * mathPi
  , is_internal := true
  , recommendation := "Check if " ++ toString (5 : ℚ) ++
      "mm diameter matches standard tooling." }

/-- A cylindrical face whose boundary consists of straight (seam) edges
only: `_get_cylinder_properties` finds no circular edge. -/
def lineCylFace : Face :=
  { id := 0, geomType := "CYLINDER", area := 50, orientation := "REVERSED"
  , center := some ⟨0, 0, 0⟩
  , normalAt := fun _ => some ⟨1, 0, 0⟩
  , distToPoint := fun _ => some 1
  , edges := [⟨0, "LINE", ⟨0, 0, 0⟩, none⟩, ⟨1, "LINE", ⟨0, 0, 1⟩, none⟩] }

/-- The feature `analyze_hole_dimensions` classifies from a cylindrical
face `f` (at index `i`) that has no adjacent circular edge: estimated
radius and height are both 0. -/
def zeroCylFeature (i : Nat) (f : Face) : HoleFeature :=
  { idx := i
  , face_id := "F" ++ toString i
  , ftype := if f.orientation = "REVERSED" then "HOLE" else "BOSS"
  , radius := 0
  , diameter := 0
  , height := 0
  , area := f.area
  , is_internal := f.orientation = "REVERSED"
  , recommendation := "Check if " ++ toString (0 : ℚ) ++
      "mm diameter matches standard tooling." }

/-- Two tiny coplanar faces of identical area 0.01. -/
def dupFace (i : Nat) : Face :=
  { id := i, geomType := "PLANE", area := 1/100, orientation := "FORWARD"
  , center := some ⟨0, 0, 0⟩
  , normalAt := fun _ => some ⟨0, 0, 1⟩
  , distToPoint := fun _ => some 1
  , edges := [] }

/-- A workplane with two identical tiny faces: both trigger GEN_003 with
byte-identical issue records, exhibiting the absence of
deduplication. -/
def dupModel : Model :=
  { faces := [dupFace 0, dupFace 1], solids := [], val := none
  , intersectVolume := fun _ _ => none, solidDist := fun _ _ => none }

/-- The GEN_003 issue produced (twice) by `dupModel`. -/
def dupIssue : Issue :=
  mkIssue "GEN_003" "Small Feature Detection" "WARNING"
    "Feature may be too small to manufacture reliably"
    ("Face area (" ++ toString ((1 : ℚ)/100) ++
      " mm2) is very small. Verify whether it is intentional or a modeling artifact.")
    [] false

/-- Well-formedness of an Issue record as stated by the spec invariant:
non-empty ruleId, ruleName and recommendation, and a severity drawn from
the OpenAPI enum. -/
def IssueWF (i : Issue) : Prop :=
  i.ruleId ≠ "" ∧ i.ruleName ≠ "" ∧ i.recommendation ≠ "" ∧
    i.severity ∈ (["ERROR", "WARNING", "INFO"] : List String)

/-- A single planar test face whose outward normal points straight down,
used as concrete input for the undercut theorems. -/
def undercutTestFace : Face :=
  { id := 0
  , geomType := "PLANE"
  , area := 1
  , orientation := "FORWARD"
  , center := some ⟨0, 0, 0⟩
  , normalAt := fun _ => some ⟨0, 0, -1⟩
  , distToPoint := fun _ => some 1
  , edges := [] }

/-! # Theorems -/

/-! ## Generic lemmas about the loop embeddings -/

theorem enumFilterMapFrom_append {α β : Type} (g : Nat → α → Option β)
    (k : Nat) (l₁ l₂ : List α) :
    enumFilterMapFrom g k (l₁ ++ l₂) =
      enumFilterMapFrom g k l₁ ++ enumFilterMapFrom g (k + l₁.length) l₂ := by
  induction l₁ generalizing k with
  | nil => simp [enumFilterMapFrom]
  | cons a as ih =>
    simp only [List.cons_append, enumFilterMapFrom]
    cases g k a <;>
      simp [ih, List.length_cons, Nat.add_comm, Nat.add_assoc, Nat.add_left_comm]

theorem mem_enumFilterMapFrom {α β : Type} {g : Nat → α → Option β}
    {k : Nat} {l : List α} {b : β} :
    b ∈ enumFilterMapFrom g k l ↔
      ∃ i a, l[i]? = some a ∧ g (k + i) a = some b := by
  induction l generalizing k with
  | nil => simp [enumFilterMapFrom]
  | cons a as ih =>
    constructor
    · intro hb
      simp only [enumFilterMapFrom] at hb
      cases hg : g k a with
      | none =>
        simp only [hg] at hb
        obtain ⟨i, x, hx, hxb⟩ := ih.mp hb
        refine ⟨i + 1, x, by simpa using hx, ?_⟩
        have he : k + 1 + i = k + (i + 1) := by omega
        rwa [he] at hxb
      | some b₀ =>
        simp only [hg] at hb
        rcases List.mem_cons.mp hb with h | h
        · exact ⟨0, a, by simp, by simpa [h] using hg⟩
        · obtain ⟨i, x, hx, hxb⟩ := ih.mp h
          refine ⟨i + 1, x, by simpa using hx, ?_⟩
          have he : k + 1 + i = k + (i + 1) := by omega
          rwa [he] at hxb
    · rintro ⟨i, x, hx, hxb⟩
      cases i with
      | zero =>
        simp only [List.getElem?_cons_zero, Option.some.injEq] at hx
        subst hx
        rw [Nat.add_zero] at hxb
        simp only [enumFilterMapFrom, hxb]
        exact List.mem_cons_self _ _
      | succ n =>
        simp only [List.getElem?_cons_succ] at hx
        have hmem : b ∈ enumFilterMapFrom g (k + 1) as := by
          refine ih.mpr ⟨n, x, hx, ?_⟩
          have he : k + 1 + n = k + (n + 1) := by omega
          rwa [he]
        simp only [enumFilterMapFrom]
        cases g k a <;> simp [hmem]

/-- Reversing the pull direction negates the dot product with a normal. -/
theorem Vec.dot_neg (a b : Vec) : a.dot b.neg = -(a.dot b) := by
  simp only [Vec.dot, Vec.neg]; ring

/-- A string append whose left part is nonempty is nonempty. -/
theorem append_ne_empty_left (s t : String) (h : s.length ≠ 0) :
    s ++ t ≠ "" := by
  intro he
  apply h
  have hl := congrArg String.length he
  rw [String.length_append] at hl
  have h0 : ("" : String).length = 0 := rfl
  omega

/-- Appending on the right preserves a nonzero length. -/
theorem append_len_ne (s t : String) (h : s.length ≠ 0) :
    (s ++ t).length ≠ 0 := by
  rw [String.length_append]
  omega

/-! ## C7/C8 groundwork: soundness of the undercut records -/

/-- Every record produced by `detect_undercuts` was flagged by the
`dot < -0.05` test, and its severity encodes the `dot < -0.7`
escalation. -/
theorem detectUndercuts_sound {faces : List Face} {pull : Vec}
    {r : UndercutRec} (hr : r ∈ detectUndercuts faces pull) :
    r.dot_product < -(1/20) ∧
      (r.severity = "high" ↔ r.dot_product < -(7/10)) := by
  obtain ⟨i, f, -, hu⟩ := mem_enumFilterMapFrom.mp hr
  unfold undercutAt at hu
  cases hc : f.center with
  | none => simp [hc] at hu
  | some c =>
    cases hn : f.normalAt c with
    | none => simp [hc, hn] at hu
    | some n =>
      simp only [hc, hn] at hu
      split at hu
      · rename_i hdot
        cases hu
        refine ⟨by simpa [mkUndercutRec] using hdot, ?_⟩
        by_cases hh : n.dot pull < -(7/10) <;> simp [mkUndercutRec, hh]
      · exact absurd hu (by simp)

/-- C7: for every face and (unit) pull direction `d`, `detect_undercuts`
flags the face exactly when the dot product of the face's center normal
with `d` is below `-0.05`, and the flagged record's severity is `"high"`
exactly when that dot product is below `-0.7` (else `"medium"`). -/
theorem undercut_flag_iff_dot_lt (faces : List Face) (pull : Vec) (i : Nat)
    (f : Face) (c : Point) (n : Vec)
    (hf : faces[i]? = some f) (hc : f.center = some c)
    (hn : f.normalAt c = some n)
    (hnu : n.normSq = 1) (hpu : pull.normSq = 1) :
    (mkUndercutRec i (n.dot pull) ∈ detectUndercuts faces pull ↔
        n.dot pull < -(1/20)) ∧
      ((mkUndercutRec i (n.dot pull)).severity = "high" ↔
        n.dot pull < -(7/10)) ∧
      ((mkUndercutRec i (n.dot pull)).severity = "medium" ↔
        ¬ n.dot pull < -(7/10)) := by
  refine ⟨⟨?_, ?_⟩, ?_, ?_⟩
  · intro hmem
    exact by simpa [mkUndercutRec] using (detectUndercuts_sound hmem).1
  · intro hdot
    refine mem_enumFilterMapFrom.mpr ⟨i, f, hf, ?_⟩
    simp only [undercutAt, hc, hn]
    rw [if_pos hdot, Nat.zero_add]
  · by_cases hh : n.dot pull < -(7/10) <;> simp [mkUndercutRec, hh]
  · by_cases hh : n.dot pull < -(7/10) <;> simp [mkUndercutRec, hh]

/-- Concrete instantiation of `undercut_flag_iff_dot_lt` on the downward
face under pull +Z: its dot product is `-1`, so it is flagged with
severity `"high"`. -/
theorem undercut_flag_iff_dot_lt_witness :
    (mkUndercutRec 0 ((Vec.mk 0 0 (-1)).dot zUp) ∈
        detectUndercuts [undercutTestFace] zUp ↔
      (Vec.mk 0 0 (-1)).dot zUp < -(1/20)) ∧
      ((mkUndercutRec 0 ((Vec.mk 0 0 (-1)).dot zUp)).severity = "high" ↔
        (Vec.mk 0 0 (-1)).dot zUp < -(7/10)) ∧
      ((mkUndercutRec 0 ((Vec.mk 0 0 (-1)).dot zUp)).severity = "medium" ↔
        ¬ (Vec.mk 0 0 (-1)).dot zUp < -(7/10)) :=
  undercut_flag_iff_dot_lt [undercutTestFace] zUp 0 undercutTestFace
    ⟨0, 0, 0⟩ ⟨0, 0, -1⟩ rfl rfl rfl
    (by norm_num [Vec.normSq]) (by norm_num [Vec.normSq, zUp])

/-- C8: a face flagged as an undercut for pull direction `d` is never
flagged for the reversed pull direction `-d` (stronger than the claim,
whose "unless it is also facing `-d`" proviso is never needed: the two
flag conditions `n·d < -0.05` and `n·(-d) < -0.05` are incompatible). -/
theorem undercut_antisymmetry (faces : List Face) (pull : Vec) (i : Nat)
    (f : Face) (c : Point) (n : Vec)
    (hf : faces[i]? = some f) (hc : f.center = some c)
    (hn : f.normalAt c = some n)
    (hnu : n.normSq = 1) (hpu : pull.normSq = 1)
    (hflag : mkUndercutRec i (n.dot pull) ∈ detectUndercuts faces pull) :
    mkUndercutRec i (n.dot pull.neg) ∉ detectUndercuts faces pull.neg := by
  intro hmem
  have h1 := (detectUndercuts_sound hflag).1
  have h2 := (detectUndercuts_sound hmem).1
  simp only [mkUndercutRec, Vec.dot_neg] at h1 h2
  linarith

/-- Concrete instantiation of `undercut_antisymmetry` on the downward
face: flagged under pull +Z, therefore not flagged under pull -Z. -/
theorem undercut_antisymmetry_witness :
    mkUndercutRec 0 ((Vec.mk 0 0 (-1)).dot zUp.neg) ∉
      detectUndercuts [undercutTestFace] zUp.neg :=
  undercut_antisymmetry [undercutTestFace] zUp 0 undercutTestFace
    ⟨0, 0, 0⟩ ⟨0, 0, -1⟩ rfl rfl rfl
    (by norm_num [Vec.normSq]) (by norm_num [Vec.normSq, zUp])
    (by
      refine mem_enumFilterMapFrom.mpr ⟨0, undercutTestFace, rfl, ?_⟩
      simp only [undercutAt, undercutTestFace]
      norm_num [Vec.dot, zUp])

/-! ## C10: cylindrical faces with no adjacent circular edge are inert -/

/-- C10: a cylindrical face with no adjacent circular edge gets
estimated radius and height 0 from `_get_cylinder_properties`; the
feature classified from it consequently has diameter 0, and the
positive-diameter guards of `analyze_hole_machinability` and
`analyze_boss_manufacturability` mean it contributes no deep-hole,
small-hole, tapped-hole or tall-boss record. -/
theorem no_circular_edge_inert (f : Face) (i : Nat)
    (hcyl : f.geomType = "CYLINDER")
    (hnoc : f.edges.filter (fun e => e.geomType = "CIRCLE") = []) :
    getCylinderProperties f = (0, 0) ∧
      holeFeatureAt i f = some (zeroCylFeature i f) ∧
      machContribution (zeroCylFeature i f) = [] ∧
      bossContribution (zeroCylFeature i f) = none := by
  have hprops : getCylinderProperties f = (0, 0) := by
    unfold getCylinderProperties
    rw [hnoc]
    rfl
  refine ⟨hprops, ?_, ?_, ?_⟩
  · unfold holeFeatureAt
    rw [if_pos hcyl, hprops]
    norm_num [zeroCylFeature]
  · by_cases ho : f.orientation = "REVERSED" <;>
      simp [machContribution, zeroCylFeature, ho]
  · by_cases ho : f.orientation = "REVERSED" <;>
      simp [bossContribution, zeroCylFeature, ho]

/-- Concrete instantiation of `no_circular_edge_inert` on a cylindrical
face bounded only by straight seam edges. -/
theorem no_circular_edge_inert_witness :
    getCylinderProperties lineCylFace = (0, 0) ∧
      holeFeatureAt 0 lineCylFace = some (zeroCylFeature 0 lineCylFace) ∧
      machContribution (zeroCylFeature 0 lineCylFace) = [] ∧
      bossContribution (zeroCylFeature 0 lineCylFace) = none :=
  no_circular_edge_inert lineCylFace 0 rfl (by simp [lineCylFace])

/-! ## C6: hole machinability rules -/

/-- The first-match scan of the tap table finds exactly the entry that
`d` is within 0.05 of: the table entries are at least 0.7 apart, so at
most one entry matches. -/
theorem findTap_matches (d : ℚ) (p : ℚ × String) (hp : p ∈ tapsList)
    (hm : |d - p.1| < 1/20) : findTap d tapsList = some p := by
  rw [abs_lt] at hm
  fin_cases hp
  · simp only [tapsList, findTap]
    norm_num at hm
    rw [if_pos (by rw [abs_lt]; constructor <;> simp <;> linarith [hm.1, hm.2])]
  · simp only [tapsList, findTap]
    norm_num at hm
    rw [if_neg (by rw [abs_lt]; push_neg; intro h; simp at h ⊢ <;> linarith [hm.1, hm.2]),
        if_pos (by rw [abs_lt]; constructor <;> simp <;> linarith [hm.1, hm.2])]
  · simp only [tapsList, findTap]
    norm_num at hm
    rw [if_neg (by rw [abs_lt]; push_neg; intro h; simp at h ⊢ <;> linarith [hm.1, hm.2]),
        if_neg (by rw [abs_lt]; push_neg; intro h; simp at h ⊢ <;> linarith [hm.1, hm.2]),
        if_pos (by rw [abs_lt]; constructor <;> simp <;> linarith [hm.1, hm.2])]
  · simp only [tapsList, findTap]
    norm_num at hm
    rw [if_neg (by rw [abs_lt]; push_neg; intro h; simp at h ⊢ <;> linarith [hm.1, hm.2]),
        if_neg (by rw [abs_lt]; push_neg; intro h; simp at h ⊢ <;> linarith [hm.1, hm.2]),
        if_neg (by rw [abs_lt]; push_neg; intro h; simp at h ⊢ <;> linarith [hm.1, hm.2]),
        if_pos (by rw [abs_lt]; constructor <;> simp <;> linarith [hm.1, hm.2])]
  · simp only [tapsList, findTap]
    norm_num at hm
    rw [if_neg (by rw [abs_lt]; push_neg; intro h; simp at h ⊢ <;> linarith [hm.1, hm.2]),
        if_neg (by rw [abs_lt]; push_neg; intro h; simp at h ⊢ <;> linarith [hm.1, hm.2]),
        if_neg (by rw [abs_lt]; push_neg; intro h; simp at h ⊢ <;> linarith [hm.1, hm.2]),
        if_neg (by rw [abs_lt]; push_neg; intro h; simp at h ⊢ <;> linarith [hm.1, hm.2]),
        if_pos (by rw [abs_lt]; constructor <;> simp <;> linarith [hm.1, hm.2])]
  · simp only [tapsList, findTap]
    norm_num at hm
    rw [if_neg (by rw [abs_lt]; push_neg; intro h; simp at h ⊢ <;> linarith [hm.1, hm.2]),
        if_neg (by rw [abs_lt]; push_neg; intro h; simp at h ⊢ <;> linarith [hm.1, hm.2]),
        if_neg (by rw [abs_lt]; push_neg; intro h; simp at h ⊢ <;> linarith [hm.1, hm.2]),
        if_neg (by rw [abs_lt]; push_neg; intro h; simp at h ⊢ <;> linarith [hm.1, hm.2]),
        if_neg (by rw [abs_lt]; push_neg; intro h; simp at h ⊢ <;> linarith [hm.1, hm.2]),
        if_pos (by rw [abs_lt]; constructor <;> simp <;> linarith [hm.1, hm.2])]
  · simp only [tapsList, findTap]
    norm_num at hm
    rw [if_neg (by rw [abs_lt]; push_neg; intro h; simp at h ⊢ <;> linarith [hm.1, hm.2]),
        if_neg (by rw [abs_lt]; push_neg; intro h; simp at h ⊢ <;> linarith [hm.1, hm.2]),
        if_neg (by rw [abs_lt]; push_neg; intro h; simp at h ⊢ <;> linarith [hm.1, hm.2]),
        if_neg (by rw [abs_lt]; push_neg; intro h; simp at h ⊢ <;> linarith [hm.1, hm.2]),
        if_neg (by rw [abs_lt]; push_neg; intro h; simp at h ⊢ <;> linarith [hm.1, hm.2]),
        if_neg (by rw [abs_lt]; push_neg; intro h; simp at h ⊢ <;> linarith [hm.1, hm.2]),
        if_pos (by rw [abs_lt]; constructor <;> simp <;> linarith [hm.1, hm.2])]

/-- C6: for every classified hole with positive diameter, a
depth/diameter ratio above 5 yields a DEEP_HOLE record (severity high
exactly above 10), a diameter below 1.5 yields a SMALL_HOLE record, a
diameter within 0.05 of a tap-table entry yields an informational
POTENTIAL_TAPPED_HOLE record for that tap — in particular M6 for a
diameter within 0.05 of 5.0. -/
theorem hole_machinability_rules (faces : List Face) (h : HoleFeature)
    (hh : h ∈ analyzeHoleDimensions faces)
    (hint : h.is_internal = true) (hd : 0 < h.diameter) :
    (5 < h.height / h.diameter →
       deepHoleRec h ∈ analyzeHoleMachinability faces ∧
         ((deepHoleRec h).severity = "high" ↔ 10 < h.height / h.diameter)) ∧
      (h.diameter < 3/2 → smallHoleRec h ∈ analyzeHoleMachinability faces) ∧
      (∀ p ∈ tapsList, |h.diameter - p.1| < 1/20 →
         tapRec h p.2 ∈ analyzeHoleMachinability faces ∧
           (tapRec h p.2).severity = "info") ∧
      (|h.diameter - 5| < 1/20 → tapRec h "M6" ∈ analyzeHoleMachinability faces) := by
  have hmem : ∀ r ∈ machContribution h, r ∈ analyzeHoleMachinability faces := by
    intro r hr
    exact List.mem_flatMap.mpr ⟨h, hh, hr⟩
  have hcontrib : machContribution h =
      (if 5 < h.height / h.diameter then [deepHoleRec h] else []) ++
      (if h.diameter < 3/2 then [smallHoleRec h] else []) ++
      (match findTap h.diameter tapsList with
       | some p => [tapRec h p.2]
       | none => []) := by
    unfold machContribution
    rw [if_pos hint, if_pos hd]
  have htap : ∀ p ∈ tapsList, |h.diameter - p.1| < 1/20 →
      tapRec h p.2 ∈ analyzeHoleMachinability faces ∧
        (tapRec h p.2).severity = "info" := by
    intro p hp hmatch
    refine ⟨hmem _ ?_, by simp [tapRec]⟩
    rw [hcontrib]
    refine List.mem_append_right _ ?_
    rw [findTap_matches h.diameter p hp hmatch]
    simp
  refine ⟨?_, ?_, htap, ?_⟩
  · intro hratio
    refine ⟨hmem _ ?_, ?_⟩
    · rw [hcontrib]
      refine List.mem_append_left _ (List.mem_append_left _ ?_)
      rw [if_pos hratio]
      simp
    · unfold deepHoleRec
      by_cases hten : 10 < h.height / h.diameter <;> simp [hten]
  · intro hsmall
    refine hmem _ ?_
    rw [hcontrib]
    refine List.mem_append_left _ (List.mem_append_right _ ?_)
    rw [if_pos hsmall]
    simp
  · intro hfive
    exact (htap (5, "M6") (by simp [tapsList]) (by simpa using hfive)).1

/-- The hole of `cylFace`: diameter 5 and depth 26, classified by the
pipeline; ratio 5.2 exceeds 5 but not 10, and the diameter matches the
M6 tap-drill size exactly. -/
theorem hole_machinability_rules_witness :
    (deepHoleRec cylHole ∈ analyzeHoleMachinability [cylFace] ∧
      ((deepHoleRec cylHole).severity = "high" ↔
        10 < cylHole.height / cylHole.diameter)) ∧
      (tapRec cylHole "M6" ∈ analyzeHoleMachinability [cylFace] ∧
        (tapRec cylHole "M6").severity = "info") := by
  have hlist : analyzeHoleDimensions [cylFace] = [cylHole] := by
    simp only [analyzeHoleDimensions, enumFilterMapFrom, holeFeatureAt,
      getCylinderProperties, cylFace, cylHole]
    norm_num [mathPi]
  have hr := hole_machinability_rules [cylFace] cylHole
    (by rw [hlist]; exact List.mem_cons_self _ _) rfl
    (by norm_num [cylHole])
  exact ⟨hr.1 (by norm_num [cylHole]),
    hr.2.2.1 (5, "M6") (by simp [tapsList]) (by norm_num [cylHole])⟩

/-! ## Nonemptiness of record recommendations (groundwork for C2/C9) -/

/-- Well-formedness of a `_create_issue` result, from the nonemptiness
of the three text arguments and validity of the severity. -/
theorem mkIssue_wf (rid rn sev desc rec : String) (aff : List String)
    (af : Bool) (h1 : rid ≠ "") (h2 : rn ≠ "") (h3 : rec ≠ "")
    (h4 : sev ∈ (["ERROR", "WARNING", "INFO"] : List String)) :
    IssueWF (mkIssue rid rn sev desc rec aff af) :=
  ⟨h1, h2, h3, h4⟩

theorem machRec_rec_ne {faces : List Face} {r : MachRec}
    (hr : r ∈ analyzeHoleMachinability faces) : r.recommendation ≠ "" := by
  obtain ⟨h, -, hmem⟩ := List.mem_flatMap.mp hr
  unfold machContribution at hmem
  split at hmem
  · split at hmem
    · rcases List.mem_append.mp hmem with hm | hm
      · rcases List.mem_append.mp hm with hm₁ | hm₁
        · split at hm₁
          · rw [List.mem_singleton] at hm₁
            subst hm₁
            exact append_ne_empty_left _ _ (append_len_ne _ _ (by decide))
          · exact absurd hm₁ (List.not_mem_nil _)
        · split at hm₁
          · rw [List.mem_singleton] at hm₁
            subst hm₁
            exact append_ne_empty_left _ _ (append_len_ne _ _ (by decide))
          · exact absurd hm₁ (List.not_mem_nil _)
      · split at hm
        · rw [List.mem_singleton] at hm
          subst hm
          exact append_ne_empty_left _ _ (append_len_ne _ _ (by decide))
        · exact absurd hm (List.not_mem_nil _)
    · exact absurd hmem (List.not_mem_nil _)
  · exact absurd hmem (List.not_mem_nil _)

theorem clearRec_rec_ne {m : Model} {r : ClearanceRec}
    (hr : r ∈ analyzeHoleClearance m) : r.recommendation ≠ "" := by
  unfold analyzeHoleClearance at hr
  split at hr
  · exact absurd hr (List.not_mem_nil _)
  · obtain ⟨h, -, hc⟩ := List.mem_filterMap.mp hr
    unfold clearanceForHole at hc
    split at hc
    case isFalse => exact absurd hc (by simp)
    case isTrue =>
      split at hc
      case h_1 => exact absurd hc (by simp)
      case h_2 =>
        split at hc
        case h_1 => exact absurd hc (by simp)
        case h_2 =>
          split at hc
          case h_1 => exact absurd hc (by simp)
          case h_2 => exact absurd hc (by simp)
          case h_3 =>
            split at hc
            · cases hc
              exact append_ne_empty_left _ _
                (append_len_ne _ _ (append_len_ne _ _ (append_len_ne _ _
                  (append_len_ne _ _ (append_len_ne _ _ (by decide))))))
            · exact absurd hc (by simp)

theorem bossRec_rec_ne {faces : List Face} {r : BossRec}
    (hr : r ∈ analyzeBossManufacturability faces) : r.recommendation ≠ "" := by
  obtain ⟨h, -, hb⟩ := List.mem_filterMap.mp hr
  unfold bossContribution at hb
  split at hb
  · split at hb
    · split at hb
      · cases hb
        exact append_ne_empty_left _ _ (append_len_ne _ _ (by decide))
      · exact absurd hb (by simp)
    · exact absurd hb (by simp)
  · exact absurd hb (by simp)

theorem smallRec_rec_ne {faces : List Face} {r : SmallRec}
    (hr : r ∈ detectSmallFeatures faces) : r.recommendation ≠ "" := by
  obtain ⟨i, f, -, hf⟩ := mem_enumFilterMapFrom.mp hr
  unfold smallFeatureAt at hf
  split at hf
  · cases hf
    exact append_ne_empty_left _ _ (append_len_ne _ _ (by decide))
  · exact absurd hf (by simp)

theorem asmClearRec_rec_ne {m : Model} {r : AsmClearRec}
    (hr : r ∈ analyzeClearances m) : r.recommendation ≠ "" := by
  obtain ⟨p, -, hc⟩ := List.mem_filterMap.mp hr
  unfold clearanceForPair at hc
  split at hc
  case h_2 => exact absurd hc (by simp)
  case h_1 =>
    split at hc
    case h_1 => exact absurd hc (by simp)
    case h_2 =>
      split at hc
      · exact absurd hc (by simp)
      · split at hc
        · cases hc
          exact append_ne_empty_left _ _
            (append_len_ne _ _ (append_len_ne _ _ (append_len_ne _ _
              (append_len_ne _ _ (append_len_ne _ _ (by decide))))))
        · exact absurd hc (by simp)

/-! ## Segment properties of the aggregator (groundwork for C2/C9) -/

theorem generalSurfaceIssues_props {m : Model} :
    ∀ i ∈ generalSurfaceIssues m,
      IssueWF i ∧ (i.ruleId = "GEN_001" ∨ i.ruleId = "GEN_002") := by
  intro i hi
  unfold generalSurfaceIssues at hi
  rcases List.mem_append.mp hi with hcx | heff
  · obtain ⟨s, -, hmk⟩ := List.mem_filterMap.mp hcx
    split at hmk
    · cases hmk
      exact ⟨mkIssue_wf _ _ _ _ _ _ _ (by decide) (by decide)
        (by decide) (by decide), Or.inl rfl⟩
    · exact absurd hmk (by simp)
  · split at heff
    · split at heff
      · exact absurd heff (List.not_mem_nil _)
      · rw [List.mem_singleton] at heff
        subst heff
        exact ⟨mkIssue_wf _ _ _ _ _ _ _ (by decide) (by decide)
          (by decide) (by decide), Or.inr rfl⟩
    · exact absurd heff (List.not_mem_nil _)

theorem assemblyIssues_props {m : Model} :
    ∀ i ∈ assemblyIssues m,
      IssueWF i ∧ (i.ruleId = "ASM_001" ∨ i.ruleId = "ASM_002") := by
  intro i hi
  unfold assemblyIssues at hi
  split at hi
  · rcases List.mem_append.mp hi with hr | hc
    · obtain ⟨r, -, hmk⟩ := List.mem_map.mp hr
      subst hmk
      exact ⟨mkIssue_wf _ _ _ _ _ _ _ (by decide) (by decide)
        (by decide) (by decide), Or.inl rfl⟩
    · obtain ⟨r, hrm, hmk⟩ := List.mem_map.mp hc
      subst hmk
      exact ⟨mkIssue_wf _ _ _ _ _ _ _ (by decide) (by decide)
        (asmClearRec_rec_ne hrm) (by decide), Or.inr rfl⟩
  · exact absurd hi (List.not_mem_nil _)

theorem smallFeatureIssues_props {m : Model} :
    ∀ i ∈ smallFeatureIssues m, IssueWF i ∧ i.ruleId = "GEN_003" := by
  intro i hi
  obtain ⟨r, hrm, hmk⟩ := List.mem_map.mp hi
  subst hmk
  exact ⟨mkIssue_wf _ _ _ _ _ _ _ (by decide) (by decide)
    (smallRec_rec_ne hrm) (by decide), rfl⟩

/-- Assembly checks are skipped for single-solid (or empty) models. -/
theorem assemblyIssues_single {m : Model} (h : m.solids.length ≤ 1) :
    assemblyIssues m = [] := by
  unfold assemblyIssues
  rw [if_neg]
  simp only [analyzeSolids]
  omega

/-! ## C2: unknown process falls back to the universal checks -/

/-- C2: for a process other than CNC_MACHINING, INJECTION_MOLDING and
FDM_3D_PRINTING, `analyze_dfm` runs no process-specific checks: the
output is exactly the universal surface checks, the assembly checks and
small-feature detection; every emitted ruleId is GEN_001, GEN_002,
ASM_001, ASM_002 or GEN_003 (in particular no CNC_/IM_/FDM_ rule fires),
and with at most one solid only the GEN rules remain. -/
theorem analyzeDfm_unknown_process (draftLt : ℚ → ℚ → Bool) (m : Model)
    (p : String)
    (h1 : p ≠ "CNC_MACHINING") (h2 : p ≠ "INJECTION_MOLDING")
    (h3 : p ≠ "FDM_3D_PRINTING") :
    analyzeDfm draftLt m p =
        generalSurfaceIssues m ++ assemblyIssues m ++ smallFeatureIssues m ∧
      (∀ i ∈ analyzeDfm draftLt m p,
        i.ruleId ∈ (["GEN_001", "GEN_002", "ASM_001", "ASM_002", "GEN_003"] : List String)) ∧
      (m.solids.length ≤ 1 → ∀ i ∈ analyzeDfm draftLt m p,
        i.ruleId ∈ (["GEN_001", "GEN_002", "GEN_003"] : List String)) := by
  have hp : processIssues draftLt m p = [] := by
    unfold processIssues
    rw [if_neg h1, if_neg h2, if_neg h3]
  have heq : analyzeDfm draftLt m p =
      generalSurfaceIssues m ++ assemblyIssues m ++ smallFeatureIssues m := by
    unfold analyzeDfm
    rw [hp]
    simp [List.append_assoc]
  refine ⟨heq, ?_, ?_⟩
  · intro i hi
    rw [heq] at hi
    rcases List.mem_append.mp hi with hga | hs
    · rcases List.mem_append.mp hga with hg | ha
      · rcases (generalSurfaceIssues_props i hg).2 with h | h <;> simp [h]
      · rcases (assemblyIssues_props i ha).2 with h | h <;> simp [h]
    · simp [(smallFeatureIssues_props i hs).2]
  · intro hsol i hi
    rw [heq, assemblyIssues_single hsol] at hi
    rcases List.mem_append.mp hi with hga | hs
    · rcases List.mem_append.mp hga with hg | ha
      · rcases (generalSurfaceIssues_props i hg).2 with h | h <;> simp [h]
      · exact absurd ha (by simp)
    · simp [(smallFeatureIssues_props i hs).2]

/-- Concrete instantiation of `analyzeDfm_unknown_process` on the empty
workplane under the unrecognised process string "LASER_CUTTING". -/
theorem analyzeDfm_unknown_process_witness :
    analyzeDfm draftLtFalse emptyModel "LASER_CUTTING" =
        generalSurfaceIssues emptyModel ++ assemblyIssues emptyModel ++
          smallFeatureIssues emptyModel ∧
      (∀ i ∈ analyzeDfm draftLtFalse emptyModel "LASER_CUTTING",
        i.ruleId ∈ (["GEN_001", "GEN_002", "ASM_001", "ASM_002", "GEN_003"] : List String)) ∧
      (emptyModel.solids.length ≤ 1 →
        ∀ i ∈ analyzeDfm draftLtFalse emptyModel "LASER_CUTTING",
          i.ruleId ∈ (["GEN_001", "GEN_002", "GEN_003"] : List String)) :=
  analyzeDfm_unknown_process draftLtFalse emptyModel "LASER_CUTTING"
    (by decide) (by decide) (by decide)

/-! ## C3: per-feature failures are caught and isolated -/

theorem cncIssues_broken : cncIssues brokenModel = [] := rfl

theorem imIssues_broken (draftLt : ℚ → ℚ → Bool) :
    imIssues draftLt brokenModel = [] := rfl

theorem fdmIssues_broken : fdmIssues brokenModel = [] := rfl

theorem generalSurfaceIssues_broken : generalSurfaceIssues brokenModel = [] := rfl

theorem smallFeatureIssues_broken : smallFeatureIssues brokenModel = [] := by
  norm_num [smallFeatureIssues, brokenModel, brokenFace, detectSmallFeatures,
    smallFeatureAt, enumFilterMapFrom]

/-- C3: failures of individual geometric queries are caught and only
skip the affected feature, and the analysis always returns (a possibly
incomplete) issue list rather than raising.  Formalised three ways:
(1) in `detect_undercuts`, a face whose `Center()` query raises
contributes nothing, while every other face's findings are exactly those
of the unbroken enumeration (prefix at its own indices, suffix at the
original shifted indices); (2) the same for `analyze_overhangs_3d_print`;
(3) on a workplane whose every fallible query raises (including
`val()`), `analyze_dfm` still returns for every process — the total
embedding evaluates to the empty issue list instead of aborting. -/
theorem query_failures_isolated :
    (∀ (fs1 fs2 : List Face) (f : Face) (pull : Vec), f.center = none →
       detectUndercuts (fs1 ++ f :: fs2) pull =
         detectUndercuts fs1 pull ++
           enumFilterMapFrom (undercutAt pull) (fs1.length + 1) fs2) ∧
      (∀ (fs1 fs2 : List Face) (f : Face), f.center = none →
        analyzeOverhangs3dPrint (fs1 ++ f :: fs2) =
          analyzeOverhangs3dPrint fs1 ++
            enumFilterMapFrom overhangAt (fs1.length + 1) fs2) ∧
      (∀ (p : String) (draftLt : ℚ → ℚ → Bool),
        analyzeDfm draftLt brokenModel p = []) := by
  refine ⟨?_, ?_, ?_⟩
  · intro fs1 fs2 f pull hc
    unfold detectUndercuts
    rw [enumFilterMapFrom_append]
    simp only [Nat.zero_add]
    congr 1
    have hnone : undercutAt pull fs1.length f = none := by
      simp [undercutAt, hc]
    simp only [enumFilterMapFrom, hnone]
  · intro fs1 fs2 f hc
    unfold analyzeOverhangs3dPrint
    rw [enumFilterMapFrom_append]
    simp only [Nat.zero_add]
    congr 1
    have hnone : overhangAt fs1.length f = none := by
      simp [overhangAt, hc]
    simp only [enumFilterMapFrom, hnone]
  · intro p draftLt
    unfold analyzeDfm processIssues
    split_ifs <;>
      simp [cncIssues_broken, imIssues_broken, fdmIssues_broken,
        generalSurfaceIssues_broken, smallFeatureIssues_broken,
        assemblyIssues_single (m := brokenModel) (by simp [brokenModel])]

/-- Concrete instantiation of `query_failures_isolated`: a face with a
failing `Center()` between two healthy faces contributes nothing, and
the healthy faces are analysed as usual. -/
theorem query_failures_isolated_witness :
    brokenFace.center = none ∧
      detectUndercuts ([undercutTestFace] ++ brokenFace :: [undercutTestFace]) zUp =
        detectUndercuts [undercutTestFace] zUp ++
          enumFilterMapFrom (undercutAt zUp) ([undercutTestFace].length + 1)
            [undercutTestFace] :=
  ⟨rfl, query_failures_isolated.1 [undercutTestFace] [undercutTestFace]
    brokenFace zUp rfl⟩

/-! ## C4: pairwise interference detection -/

theorem mem_drop_range {n m j : Nat} :
    j ∈ (List.range n).drop m ↔ m ≤ j ∧ j < n := by
  constructor
  · intro hj
    obtain ⟨i, hi⟩ := List.mem_iff_getElem?.mp hj
    rw [List.getElem?_drop] at hi
    by_cases hlt : m + i < n
    · rw [List.getElem?_range hlt] at hi
      cases hi
      omega
    · rw [List.getElem?_eq_none (by simpa using hlt)] at hi
      cases hi
  · intro ⟨hmj, hjn⟩
    refine List.mem_iff_getElem?.mpr ⟨j - m, ?_⟩
    rw [List.getElem?_drop]
    have he : m + (j - m) = j := by omega
    rw [he]
    simp [List.getElem?_range, hjn]

theorem mem_pairIndices {n i j : Nat} :
    (i, j) ∈ pairIndices n ↔ i < j ∧ j < n := by
  unfold pairIndices
  simp only [List.mem_flatMap, List.mem_map, List.mem_range]
  constructor
  · rintro ⟨a, ha, b, hb, hab⟩
    cases hab
    have := mem_drop_range.mp hb
    omega
  · rintro ⟨hij, hjn⟩
    exact ⟨i, by omega, j, mem_drop_range.mpr (by omega), rfl⟩

/-- C4: for a pair of distinct solids (`i < j`) whose bounding boxes
overlap, a successful intersection-volume query above 1e-6 produces an
INTERFERENCE record with `relative_severity = volume / min(v1, v2)`
(when the smaller volume is positive, as the claim presumes) and
severity high exactly when that ratio exceeds 0.01; a failing
intersection query produces the POTENTIAL_INTERFERENCE record, which
carries no volume. -/
theorem interference_pair_rules (m : Model) (i j : Nat) (s1 s2 : Solid)
    (hij : i < j)
    (h1 : m.solids[i]? = some s1) (h2 : m.solids[j]? = some s2)
    (hov : s1.bbox.overlaps s2.bbox = true) :
    (∀ v, m.intersectVolume i j = some v → 1/1000000 < v →
       0 < min s1.volume s2.volume →
       mkInterfRec i j v (v / min s1.volume s2.volume) ∈ detectInterferences m ∧
         (mkInterfRec i j v (v / min s1.volume s2.volume)).relative_severity =
           some (v / min s1.volume s2.volume) ∧
         ((mkInterfRec i j v (v / min s1.volume s2.volume)).severity = "high" ↔
           1/100 < v / min s1.volume s2.volume)) ∧
      (m.intersectVolume i j = none →
        mkPotentialRec i j ∈ detectInterferences m ∧
          (mkPotentialRec i j).volume = none) := by
  obtain ⟨hjn, -⟩ := List.getElem?_eq_some.mp h2
  have hpair : (i, j) ∈ pairIndices m.solids.length :=
    mem_pairIndices.mpr ⟨hij, hjn⟩
  constructor
  · intro v hv hbig hpos
    refine ⟨?_, rfl, ?_⟩
    · refine List.mem_filterMap.mpr ⟨(i, j), hpair, ?_⟩
      unfold interferenceForPair
      simp only [h1, h2, hov, if_true]
      rw [hv]
      simp only [gt_iff_lt, hbig, if_true, if_pos hpos]
    · unfold mkInterfRec
      by_cases h01 : 1/100 < v / min s1.volume s2.volume <;> simp [h01]
  · intro hnone
    refine ⟨?_, rfl⟩
    refine List.mem_filterMap.mpr ⟨(i, j), hpair, ?_⟩
    unfold interferenceForPair
    simp only [h1, h2, hov, if_true, hnone]

/-- Concrete instantiation of `interference_pair_rules`: two unit cubes
overlapping by 0.5, intersection volume 0.5, relative severity 0.5,
severity high. -/
theorem interference_pair_rules_witness :
    mkInterfRec 0 1 (1/2) ((1/2) / min (1:ℚ) 1) ∈ detectInterferences cubesModel ∧
      (mkInterfRec 0 1 (1/2) ((1/2) / min (1:ℚ) 1)).relative_severity =
        some ((1/2) / min (1:ℚ) 1) ∧
      ((mkInterfRec 0 1 (1/2) ((1/2) / min (1:ℚ) 1)).severity = "high" ↔
        1/100 < (1/2) / min (1:ℚ) 1) := by
  have h := interference_pair_rules cubesModel 0 1
    ⟨1, ⟨0, 1, 0, 1, 0, 1⟩⟩ ⟨1, ⟨1/2, 3/2, 0, 1, 0, 1⟩⟩
    (by omega) rfl rfl (by norm_num [BBox.overlaps])
  exact h.1 (1/2) rfl (by norm_num) (by norm_num)

/-! ## C9: well-formedness of every emitted issue, and no deduplication -/

theorem cncIssues_wf {m : Model} : ∀ i ∈ cncIssues m, IssueWF i := by
  intro i hi
  unfold cncIssues at hi
  rcases List.mem_append.mp hi with h1234 | h5
  · rcases List.mem_append.mp h1234 with h123 | h4
    · rcases List.mem_append.mp h123 with h12 | h3
      · rcases List.mem_append.mp h12 with h1 | h2
        · obtain ⟨r, -, hmk⟩ := List.mem_map.mp h1
          subst hmk
          exact mkIssue_wf _ _ _ _ _ _ _ (by decide) (by decide) (by decide) (by decide)
        · obtain ⟨r, hrm, hmk⟩ := List.mem_map.mp h2
          subst hmk
          exact mkIssue_wf _ _ _ _ _ _ _ (by decide) (by decide)
            (machRec_rec_ne hrm) (by split <;> decide)
      · obtain ⟨r, hrm, hmk⟩ := List.mem_map.mp h3
        subst hmk
        exact mkIssue_wf _ _ _ _ _ _ _ (by decide) (by decide)
          (clearRec_rec_ne hrm) (by decide)
    · obtain ⟨r, hrm, hmk⟩ := List.mem_map.mp h4
      exact absurd hrm (List.not_mem_nil _)
  · split at h5
    · split at h5
      · rw [List.mem_singleton] at h5
        subst h5
        exact mkIssue_wf _ _ _ _ _ _ _ (by decide) (by decide) (by decide) (by decide)
      · exact absurd h5 (List.not_mem_nil _)
    · exact absurd h5 (List.not_mem_nil _)

theorem imIssues_wf {draftLt : ℚ → ℚ → Bool} {m : Model} :
    ∀ i ∈ imIssues draftLt m, IssueWF i := by
  intro i hi
  unfold imIssues at hi
  rcases List.mem_append.mp hi with h12345 | h67
  · rcases List.mem_append.mp h12345 with h1234 | h5
    · rcases List.mem_append.mp h1234 with h123 | h4
      · rcases List.mem_append.mp h123 with h12 | h3
        · rcases List.mem_append.mp h12 with h1 | h2
          · obtain ⟨r, -, hmk⟩ := List.mem_filterMap.mp h1
            split at hmk
            · cases hmk
              exact mkIssue_wf _ _ _ _ _ _ _ (by decide) (by decide) (by decide) (by decide)
            · exact absurd hmk (by simp)
          · obtain ⟨r, -, hmk⟩ := List.mem_map.mp h2
            subst hmk
            exact mkIssue_wf _ _ _ _ _ _ _ (by decide) (by decide) (by decide) (by decide)
        · obtain ⟨r, hrm, hmk⟩ := List.mem_map.mp h3
          subst hmk
          exact mkIssue_wf _ _ _ _ _ _ _ (by decide) (by decide)
            (bossRec_rec_ne hrm) (by decide)
      · obtain ⟨r, -, hmk⟩ := List.mem_map.mp h4
        subst hmk
        exact mkIssue_wf _ _ _ _ _ _ _ (by decide) (by decide) (by decide) (by decide)
    · obtain ⟨r, hrm, hmk⟩ := List.mem_map.mp h5
      subst hmk
      exact mkIssue_wf _ _ _ _ _ _ _ (by decide) (by decide)
        (clearRec_rec_ne hrm) (by decide)
  · split at h67
    · exact absurd h67 (List.not_mem_nil _)
    · rcases List.mem_append.mp h67 with h6 | h7
      · split at h6
        · rw [List.mem_singleton] at h6
          subst h6
          exact mkIssue_wf _ _ _ _ _ _ _ (by decide) (by decide) (by decide) (by decide)
        · exact absurd h6 (List.not_mem_nil _)
      · split at h7
        · split at h7
          · rw [List.mem_singleton] at h7
            subst h7
            exact mkIssue_wf _ _ _ _ _ _ _ (by decide) (by decide) (by decide) (by decide)
          · exact absurd h7 (List.not_mem_nil _)
        · exact absurd h7 (List.not_mem_nil _)

theorem fdmIssues_wf {m : Model} : ∀ i ∈ fdmIssues m, IssueWF i := by
  intro i hi
  unfold fdmIssues at hi
  rcases List.mem_append.mp hi with h12 | h3
  · rcases List.mem_append.mp h12 with h1 | h2
    · obtain ⟨r, -, hmk⟩ := List.mem_map.mp h1
      subst hmk
      exact mkIssue_wf _ _ _ _ _ _ _ (by decide) (by decide) (by decide) (by decide)
    · obtain ⟨r, hrm, hmk⟩ := List.mem_map.mp h2
      subst hmk
      exact mkIssue_wf _ _ _ _ _ _ _ (by decide) (by decide)
        (clearRec_rec_ne hrm) (by decide)
  · split at h3
    · split at h3
      · rw [List.mem_singleton] at h3
        subst h3
        exact mkIssue_wf _ _ _ _ _ _ _ (by decide) (by decide) (by decide) (by decide)
      · exact absurd h3 (List.not_mem_nil _)
    · exact absurd h3 (List.not_mem_nil _)

/-- C9: every issue `analyze_dfm` emits — for every model, process and
draft oracle — carries a non-empty ruleId, ruleName and recommendation
and a severity from the OpenAPI enum; and no cross-issue deduplication
is performed: a model with two identical tiny faces yields the same
GEN_003 issue record twice in the returned list. -/
theorem issue_invariants :
    (∀ (draftLt : ℚ → ℚ → Bool) (m : Model) (p : String),
       ∀ i ∈ analyzeDfm draftLt m p, IssueWF i) ∧
      analyzeDfm draftLtFalse dupModel "GENERIC_PROCESS" = [dupIssue, dupIssue] := by
  constructor
  · intro draftLt m p i hi
    unfold analyzeDfm at hi
    rcases List.mem_append.mp hi with hx | hs
    · rcases List.mem_append.mp hx with hy | ha
      · rcases List.mem_append.mp hy with hp | hg
        · unfold processIssues at hp
          split_ifs at hp
          · exact cncIssues_wf i hp
          · exact imIssues_wf i hp
          · exact fdmIssues_wf i hp
          · exact absurd hp (List.not_mem_nil _)
        · exact (generalSurfaceIssues_props i hg).1
      · exact (assemblyIssues_props i ha).1
    · exact (smallFeatureIssues_props i hs).1
  · have hp : processIssues draftLtFalse dupModel "GENERIC_PROCESS" = [] := by
      unfold processIssues
      rw [if_neg (by decide), if_neg (by decide), if_neg (by decide)]
    unfold analyzeDfm
    rw [hp]
    norm_num [dupModel, dupFace, generalSurfaceIssues, analyzeCurvature,
      curvatureAt, enumFilterMapFrom, analyzeSurfaceAreaEfficiency,
      assemblyIssues, analyzeSolids, smallFeatureIssues, detectSmallFeatures,
      smallFeatureAt, dupIssue, mkIssue]

/-- Concrete instantiation of `issue_invariants`: the duplicated GEN_003
issue of the two-tiny-face model is itself well-formed. -/
theorem issue_invariants_witness : IssueWF dupIssue :=
  issue_invariants.1 draftLtFalse dupModel "GENERIC_PROCESS" dupIssue
    (by rw [issue_invariants.2]; exact List.mem_cons_self _ _)

/-! ## C5: hole-edge clearance -/

theorem foldl_min_comm (as : List ℚ) (x a : ℚ) :
    as.foldl min (min x a) = min x (as.foldl min a) := by
  induction as generalizing a with
  | nil => simp
  | cons b bs ih =>
    simp only [List.foldl_cons]
    rw [min_assoc, ih]

theorem min?_cons_omin (x : ℚ) (l : List ℚ) :
    (x :: l).min? = omin (some x) l.min? := by
  cases l with
  | nil => rfl
  | cons a as =>
    show some ((a :: as).foldl min x) = omin (some x) (some (as.foldl min a))
    simp only [List.foldl_cons, omin]
    rw [foldl_min_comm]

theorem omin_assoc (a b c : Option ℚ) :
    omin (omin a b) c = omin a (omin b c) := by
  cases a <;> cases b <;> cases c <;> simp [omin, min_assoc]

/-- The `min_dist` scan of `analyze_hole_clearance` computes the minimum
of the candidate clearances exceeding the 1e-3 cutoff (combined with the
incoming accumulator), provided every distance query succeeds. -/
theorem clearanceScanFrom_eq (c : Point) (r : ℚ) (fidx : Nat) :
    ∀ (fs : List Face) (k : Nat) (acc : Option ℚ),
      (∀ f ∈ fs, (f.distToPoint c).isSome = true) →
      clearanceScanFrom c r fidx k fs acc =
        some (omin acc (((clearanceCands c r fidx k fs).filter
          (fun q => decide (1/1000 < q))).min?)) := by
  intro fs
  induction fs with
  | nil =>
    intro k acc hq
    cases acc <;> simp [clearanceScanFrom, clearanceCands, enumFilterMapFrom, omin]
  | cons f fs ih =>
    intro k acc hq
    have hf : (f.distToPoint c).isSome = true := hq f (List.mem_cons_self _ _)
    have hrest : ∀ g ∈ fs, (g.distToPoint c).isSome = true :=
      fun g hg => hq g (List.mem_cons_of_mem _ hg)
    unfold clearanceScanFrom
    by_cases hk : k = fidx
    · rw [if_pos hk, ih (k + 1) acc hrest]
      have hcands : clearanceCands c r fidx k (f :: fs) =
          clearanceCands c r fidx (k + 1) fs := by
        unfold clearanceCands
        conv_lhs => rw [enumFilterMapFrom]
        rw [if_pos hk]
      rw [hcands]
    · rw [if_neg hk]
      obtain ⟨d, hd⟩ := Option.isSome_iff_exists.mp hf
      simp only [hd]
      have hcands : clearanceCands c r fidx k (f :: fs) =
          (d - r) :: clearanceCands c r fidx (k + 1) fs := by
        unfold clearanceCands
        conv_lhs => rw [enumFilterMapFrom]
        rw [if_neg hk, hd]
        rfl
      rw [hcands]
      by_cases hcl : (1 : ℚ)/1000 < d - r
      · have hacc : (match acc with
            | none => if 1/1000 < d - r then some (d - r) else none
            | some m => if 1/1000 < d - r ∧ d - r < m then some (d - r) else some m) =
            omin acc (some (d - r)) := by
          cases acc with
          | none =>
            show (if 1/1000 < d - r then some (d - r) else none) = some (d - r)
            rw [if_pos hcl]
          | some m =>
            show (if 1/1000 < d - r ∧ d - r < m then some (d - r) else some m) =
              some (min m (d - r))
            by_cases hlt : d - r < m
            · rw [if_pos ⟨hcl, hlt⟩, min_eq_right hlt.le]
            · rw [if_neg (by tauto), min_eq_left (not_lt.mp hlt)]
        rw [hacc, ih (k + 1) _ hrest]
        have hfilter : ((d - r) :: clearanceCands c r fidx (k + 1) fs).filter
            (fun q => decide (1/1000 < q)) =
            (d - r) :: (clearanceCands c r fidx (k + 1) fs).filter
              (fun q => decide (1/1000 < q)) := by
          rw [List.filter_cons_of_pos (by simpa using hcl)]
        rw [hfilter, min?_cons_omin, omin_assoc]
      · have hacc : (match acc with
            | none => if 1/1000 < d - r then some (d - r) else none
            | some m => if 1/1000 < d - r ∧ d - r < m then some (d - r) else some m) =
            acc := by
          cases acc with
          | none =>
            show (if 1/1000 < d - r then some (d - r) else none) = none
            rw [if_neg hcl]
          | some m =>
            show (if 1/1000 < d - r ∧ d - r < m then some (d - r) else some m) =
              some m
            rw [if_neg (by tauto)]
        rw [hacc, ih (k + 1) _ hrest]
        have hfilter : ((d - r) :: clearanceCands c r fidx (k + 1) fs).filter
            (fun q => decide (1/1000 < q)) =
            (clearanceCands c r fidx (k + 1) fs).filter
              (fun q => decide (1/1000 < q)) := by
          rw [List.filter_cons_of_neg (by simpa using hcl)]
        rw [hfilter]

/-- C5 (amended): for a classified hole whose face, centre and distance
queries all succeed, the clearance check computes the minimum, over all
faces other than the hole's own face (other holes included), of the
clearances `dist - radius` exceeding the 1e-3 cutoff; it flags the hole
exactly when that minimum exists and is below `diameter * 1.5`, and the
flagged record's severity is `"high"` exactly when the minimum is below
one diameter. -/
theorem hole_clearance_amended (m : Model) (h : HoleFeature) (hf : Face)
    (c : Point) (sd : SolidData)
    (hval : m.val = some sd)
    (hh : h ∈ analyzeHoleDimensions m.faces)
    (hint : h.is_internal = true)
    (hhf : m.faces[h.idx]? = some hf)
    (hc : hf.center = some c)
    (hq : ∀ f ∈ m.faces, (f.distToPoint c).isSome = true) :
    (∀ mn, ((clearanceCands c h.radius h.idx 0 m.faces).filter
          (fun q => decide (1/1000 < q))).min? = some mn →
        (mn < h.diameter * (3/2) →
          clearanceForHole m.faces h = some (mkClearanceRec h mn) ∧
            mkClearanceRec h mn ∈ analyzeHoleClearance m ∧
            ((mkClearanceRec h mn).severity = "high" ↔ mn < h.diameter)) ∧
        (¬ mn < h.diameter * (3/2) → clearanceForHole m.faces h = none)) ∧
      (((clearanceCands c h.radius h.idx 0 m.faces).filter
          (fun q => decide (1/1000 < q))).min? = none →
        clearanceForHole m.faces h = none) := by
  have hscan := clearanceScanFrom_eq c h.radius h.idx m.faces 0 none hq
  have hbody : clearanceForHole m.faces h =
      match ((clearanceCands c h.radius h.idx 0 m.faces).filter
          (fun q => decide (1/1000 < q))).min? with
      | none => none
      | some md =>
        if md < h.diameter * (3/2) then some (mkClearanceRec h md) else none := by
    unfold clearanceForHole
    rw [if_pos hint]
    simp only [hhf, hc, hscan]
    cases ((clearanceCands c h.radius h.idx 0 m.faces).filter
        (fun q => decide (1/1000 < q))).min? <;> simp [omin]
  constructor
  · intro mn hmn
    constructor
    · intro hlt
      have hsome : clearanceForHole m.faces h = some (mkClearanceRec h mn) := by
        rw [hbody, hmn]
        exact if_pos hlt
      refine ⟨hsome, ?_, ?_⟩
      · unfold analyzeHoleClearance
        rw [hval]
        exact List.mem_filterMap.mpr ⟨h, hh, hsome⟩
      · unfold mkClearanceRec
        by_cases hd : mn < h.diameter <;> simp [hd]
    · intro hge
      rw [hbody, hmn]
      exact if_neg hge
  · intro hnone
    rw [hbody, hnone]

/-- Concrete instantiation of `hole_clearance_amended`: a hole of radius
1 (diameter 2) with one other face at distance 2.5 — clearance 1.5 is
minimal, below the required 3 and below one diameter, so the hole is
flagged with severity high. -/
theorem hole_clearance_amended_witness :
    clearanceForHole clrFaces clrHole = some (mkClearanceRec clrHole (3/2)) ∧
      mkClearanceRec clrHole (3/2) ∈ analyzeHoleClearance clrModel ∧
      ((mkClearanceRec clrHole (3/2)).severity = "high" ↔
        (3 : ℚ)/2 < clrHole.diameter) := by
  have h1 : holeFeatureAt 0 clrHoleFace = some clrHole := by
    unfold holeFeatureAt clrHoleFace getCylinderProperties
    norm_num [clrHole, mathPi]
  have h2 : holeFeatureAt 1 clrFarFace = none := by
    unfold holeFeatureAt clrFarFace
    rw [if_neg (by decide)]
  have hlist : analyzeHoleDimensions clrFaces = [clrHole] := by
    simp [analyzeHoleDimensions, enumFilterMapFrom, clrFaces, h1, h2]
  have hr := hole_clearance_amended clrModel clrHole clrHoleFace ⟨0, 0, 0⟩
    ⟨⟨-2, 2, -2, 2, 0, 1⟩, 20, 10, fun _ _ => false⟩ rfl
    (by rw [show clrModel.faces = clrFaces from rfl, hlist]
        exact List.mem_cons_self _ _)
    rfl rfl rfl
    (by intro f hf; fin_cases hf <;> rfl)
  have hmin : ((clearanceCands ⟨0, 0, 0⟩ clrHole.radius clrHole.idx 0
      clrModel.faces).filter (fun q => decide (1/1000 < q))).min? =
      some (3/2) := by
    norm_num [clearanceCands, enumFilterMapFrom, clrModel, clrFaces, clrHole,
      clrHoleFace, clrFarFace, List.min?]
  have := (hr.1 (3/2) hmin).1 (by norm_num [clrHole])
  exact ⟨this.1, this.2.1, this.2.2⟩

/-- C5 counterexample: the claim's reading (minimum over all *non-hole*
faces with no cutoff) flags this hole — its only non-hole face is a mere
0.0005 beyond the hole radius — while `analyze_hole_clearance` produces
no finding, because the 0.0005 clearance is below the scan's 1e-3 cutoff
and the scan would also include other holes' faces. -/
theorem hole_clearance_spec_mismatch :
    cxHole ∈ analyzeHoleDimensions cxFaces ∧
      cxHole.is_internal = true ∧
      specHoleClearanceFlag cxFaces ⟨0, 0, 0⟩ cxHole.radius cxHole.diameter ∧
      analyzeHoleClearance cxModel = [] := by
  have h1 : holeFeatureAt 0 cxHoleFace = some cxHole := by
    unfold holeFeatureAt cxHoleFace getCylinderProperties
    norm_num [cxHole, mathPi]
  have h2 : holeFeatureAt 1 cxNearFace = none := by
    unfold holeFeatureAt cxNearFace
    rw [if_neg (by decide)]
  have hlist : analyzeHoleDimensions cxFaces = [cxHole] := by
    simp [analyzeHoleDimensions, enumFilterMapFrom, cxFaces, h1, h2]
  refine ⟨by rw [hlist]; exact List.mem_cons_self _ _, rfl, ?_, ?_⟩
  · refine ⟨1/2000, ?_, by norm_num [cxHole]⟩
    have hcl : specClearances cxFaces ⟨0, 0, 0⟩ cxHole.radius = [1/2000] := by
      simp [specClearances, cxFaces, cxHoleFace, cxNearFace, cxHole]
      norm_num
    rw [hcl]
    rfl
  · have : analyzeHoleClearance cxModel =
        (analyzeHoleDimensions cxFaces).filterMap (clearanceForHole cxFaces) := rfl
    rw [this, hlist]
    norm_num [clearanceForHole, cxHole, cxFaces, cxHoleFace, cxNearFace,
      clearanceScanFrom]

/-! ## C1: the 50 by 30 by 20 mm box under FDM_3D_PRINTING

Evaluation lemmas for `boxModel`, leading to the exact issue list of
`analyze_dfm(box, FDM_3D_PRINTING)`. -/

/-- Faces of the box sorted by descending area (50×30 twice, then 50×20
twice, then 30×20 twice), as `analyze_wall_thickness` samples them. -/
theorem box_sorted :
    sortByAreaDesc boxFaces =
      [boxFaceTop, boxFaceBottom, boxFaceYPos, boxFaceYNeg,
       boxFaceXPos, boxFaceXNeg] := by
  norm_num [boxFaces, sortByAreaDesc, insertByAreaDesc,
    boxFaceTop, boxFaceBottom, boxFaceXPos, boxFaceXNeg, boxFaceYPos,
    boxFaceYNeg]

/-- Thickness sampled at the top face: the opposing bottom face, 20mm. -/
theorem boxTop_thick : faceThickness boxFaces boxFaceTop = some 20 := by
  norm_num [boxFaces, faceThickness, wallScan, Vec.dot, Vec.add, Vec.smul,
    boxFaceTop, boxFaceBottom, boxFaceXPos, boxFaceXNeg, boxFaceYPos,
    boxFaceYNeg, rectDistX, rectDistY, rectDistZ, gapTo, abs_eq_max_neg,
    max_def, min_def]

/-- Thickness sampled at the bottom face: 20mm. -/
theorem boxBottom_thick : faceThickness boxFaces boxFaceBottom = some 20 := by
  norm_num [boxFaces, faceThickness, wallScan, Vec.dot, Vec.add, Vec.smul,
    boxFaceTop, boxFaceBottom, boxFaceXPos, boxFaceXNeg, boxFaceYPos,
    boxFaceYNeg, rectDistX, rectDistY, rectDistZ, gapTo, abs_eq_max_neg,
    max_def, min_def]

/-- Thickness sampled at the face x = 25: the closer perpendicular faces
are rejected by the inward-probe test, leaving the opposing face at
50mm. -/
theorem boxXPos_thick : faceThickness boxFaces boxFaceXPos = some 50 := by
  norm_num [boxFaces, faceThickness, wallScan, Vec.dot, Vec.add, Vec.smul,
    boxFaceTop, boxFaceBottom, boxFaceXPos, boxFaceXNeg, boxFaceYPos,
    boxFaceYNeg, rectDistX, rectDistY, rectDistZ, gapTo, abs_eq_max_neg,
    max_def, min_def]

/-- Thickness sampled at the face x = -25: 50mm. -/
theorem boxXNeg_thick : faceThickness boxFaces boxFaceXNeg = some 50 := by
  norm_num [boxFaces, faceThickness, wallScan, Vec.dot, Vec.add, Vec.smul,
    boxFaceTop, boxFaceBottom, boxFaceXPos, boxFaceXNeg, boxFaceYPos,
    boxFaceYNeg, rectDistX, rectDistY, rectDistZ, gapTo, abs_eq_max_neg,
    max_def, min_def]

/-- Thickness sampled at the face y = 15: 30mm. -/
theorem boxYPos_thick : faceThickness boxFaces boxFaceYPos = some 30 := by
  norm_num [boxFaces, faceThickness, wallScan, Vec.dot, Vec.add, Vec.smul,
    boxFaceTop, boxFaceBottom, boxFaceXPos, boxFaceXNeg, boxFaceYPos,
    boxFaceYNeg, rectDistX, rectDistY, rectDistZ, gapTo, abs_eq_max_neg,
    max_def, min_def]

/-- Thickness sampled at the face y = -15: 30mm. -/
theorem boxYNeg_thick : faceThickness boxFaces boxFaceYNeg = some 30 := by
  norm_num [boxFaces, faceThickness, wallScan, Vec.dot, Vec.add, Vec.smul,
    boxFaceTop, boxFaceBottom, boxFaceXPos, boxFaceXNeg, boxFaceYPos,
    boxFaceYNeg, rectDistX, rectDistY, rectDistZ, gapTo, abs_eq_max_neg,
    max_def, min_def]

/-- Wall thickness of the box: samples [20, 20, 30, 30, 50, 50], so
minimum 20, maximum 50, average 100/3 — far above the 0.8mm FDM_003
threshold. -/
theorem box_wallThickness :
    analyzeWallThickness boxModel = ⟨some 20, some 50, some (100/3)⟩ := by
  have htake : (sortByAreaDesc boxFaces).take 20 =
      [boxFaceTop, boxFaceBottom, boxFaceYPos, boxFaceYNeg,
       boxFaceXPos, boxFaceXNeg] := by
    rw [box_sorted]
    rfl
  have hvals : ((sortByAreaDesc boxFaces).take 20).filterMap
      (faceThickness boxFaces) = [20, 20, 30, 30, 50, 50] := by
    rw [htake]
    simp [List.filterMap_cons, boxTop_thick, boxBottom_thick, boxYPos_thick,
      boxYNeg_thick, boxXPos_thick, boxXNeg_thick]
  simp only [analyzeWallThickness, boxModel]
  rw [hvals]
  norm_num [listMin, listMax, min_def, max_def]

set_option maxHeartbeats 1000000 in
/-- Overhang scan of the box: the bottom face (index 1, unit normal
(0, 0, -1), dot product -1 with the build direction) is a 90° overhang
and is flagged; the four vertical faces (dot 0) and the top face (dot 1)
are not. -/
theorem box_overhangs :
    analyzeOverhangs3dPrint boxFaces = [⟨"F" ++ toString 1, true⟩] := by
  norm_num [analyzeOverhangs3dPrint, enumFilterMapFrom, overhangAt, samplePts,
    queryAll, boxFaces, boxFaceTop, boxFaceBottom, boxFaceXPos, boxFaceXNeg,
    boxFaceYPos, boxFaceYNeg, zUp, Vec.dot]

/-- The box has no cylindrical face, hence no hole features. -/
theorem box_holes : analyzeHoleDimensions boxFaces = [] := rfl

/-- No holes, so no hole-clearance findings. -/
theorem box_clearance : analyzeHoleClearance boxModel = [] := rfl

/-- Universal surface checks on the box: every face is planar (no
GEN_001) and the normalised area-to-volume ratio 62/9 is below the
efficiency threshold 10 (no GEN_002). -/
theorem box_general : generalSurfaceIssues boxModel = [] := by
  norm_num [generalSurfaceIssues, analyzeCurvature, enumFilterMapFrom,
    curvatureAt, analyzeSurfaceAreaEfficiency, boxModel, boxFaces, boxFaceTop,
    boxFaceBottom, boxFaceXPos, boxFaceXNeg, boxFaceYPos, boxFaceYNeg,
    boxBBox, BBox.xlen, BBox.ylen, BBox.zlen]

/-- A single solid: the assembly checks do not run. -/
theorem box_assembly : assemblyIssues boxModel = [] := rfl

/-- No face of the box is below the 0.25mm² small-feature threshold. -/
theorem box_small : smallFeatureIssues boxModel = [] := by
  norm_num [smallFeatureIssues, detectSmallFeatures, enumFilterMapFrom,
    smallFeatureAt, boxModel, boxFaces, boxFaceTop, boxFaceBottom,
    boxFaceXPos, boxFaceXNeg, boxFaceYPos, boxFaceYNeg]

/-- The FDM branch on the box: exactly the one FDM_001 overhang issue
from the bottom face; no FDM_002 (no holes) and no FDM_003 (minimum
thickness 20 ≥ 0.8). -/
theorem box_fdm : fdmIssues boxModel = [boxOverhangIssue] := by
  unfold fdmIssues
  rw [show boxModel.faces = boxFaces from rfl, box_overhangs, box_clearance,
    box_wallThickness]
  norm_num [boxOverhangIssue]

/-- C1 counterexample: the claim asserts zero FDM_001 overhang issues
for the 50×30×20 box under FDM_3D_PRINTING, but `analyze_dfm` returns
exactly one issue, an FDM_001 overhang warning — the downward-facing
bottom face of any box is itself a maximal (90°) overhang, which the
`dot < -1e-6` test of `analyze_overhangs_3d_print` flags. -/
theorem box_fdm_overhang_flagged :
    analyzeDfm draftLtFalse boxModel "FDM_3D_PRINTING" = [boxOverhangIssue] ∧
      boxOverhangIssue.ruleId = "FDM_001" := by
  constructor
  · unfold analyzeDfm processIssues
    rw [if_neg (by decide), if_neg (by decide), if_pos rfl,
      box_fdm, box_general, box_assembly, box_small]
    simp
  · rfl

/-- C1 (amended): for the 50×30×20 box under FDM_3D_PRINTING (any draft
oracle), the returned issue list is exactly one FDM_001 overhang warning
for the bottom face: no FDM_003 wall-thickness issue (minimum thickness
20mm is far above 0.8mm), no undercut issue (the only undercut-derived
rule, IM_002, runs under INJECTION_MOLDING only), but one overhang
issue, the bottom face being a 90° overhang. -/
theorem box_fdm_issue_list (draftLt : ℚ → ℚ → Bool) :
    analyzeDfm draftLt boxModel "FDM_3D_PRINTING" = [boxOverhangIssue] ∧
      (analyzeDfm draftLt boxModel "FDM_3D_PRINTING").countP
        (fun i => decide (i.ruleId = "FDM_003")) = 0 ∧
      (analyzeDfm draftLt boxModel "FDM_3D_PRINTING").countP
        (fun i => decide (i.ruleId = "IM_002")) = 0 ∧
      (analyzeDfm draftLt boxModel "FDM_3D_PRINTING").countP
        (fun i => decide (i.ruleId = "FDM_001")) = 1 := by
  have hmain : analyzeDfm draftLt boxModel "FDM_3D_PRINTING" =
      [boxOverhangIssue] := by
    unfold analyzeDfm processIssues
    rw [if_neg (by decide), if_neg (by decide), if_pos rfl,
      box_fdm, box_general, box_assembly, box_small]
    simp
  refine ⟨hmain, ?_, ?_, ?_⟩ <;> rw [hmain] <;> rfl

end Tactile
